import Mathlib

/-!
Verification of the dimensional-modelling and enrichment engine of the
public-medicine-procurement ETL pipeline (files `src/modelagem_dim.py` and
`src/dimensoes.py` of the repository).

The pandas `DataFrame` is shallowly embedded as a list of column names (the
pandas column index, in order) together with a list of rows.  A row is a
record holding the value of every column the pipeline ever touches; the
value of a field is meaningful only when the corresponding column name is
present in the column list, exactly as a pandas column only exists when its
label is in `df.columns`.  Nullable values (`NaN` / `NaT`) are embedded as
`Option`.  Monetary amounts, quantities and prices are embedded as `ℚ`;
the only genuinely irrational quantity produced by the code — the sample
standard deviation used by the z-score — lives in `ℝ`.

Every definition below is translated from the Python source; comments cite
the file and line it embeds.
-/

namespace Compras

/-! ## Generic list utilities mirroring pandas primitives -/

/-- Helper of `dedupFirst`: drop every element already seen. -/
def dedupFirstAux {α : Type} [DecidableEq α] (seen : List α) :
    List α → List α
  | [] => []
  | x :: xs =>
    if x ∈ seen then dedupFirstAux seen xs
    else x :: dedupFirstAux (x :: seen) xs

/-- First-occurrence deduplication: the embedding of
`DataFrame.drop_duplicates(...)` (keep='first', the pandas default):
keeps the first occurrence of every value, in order of first appearance. -/
def dedupFirst {α : Type} [DecidableEq α] (l : List α) : List α :=
  dedupFirstAux [] l

theorem mem_dedupFirstAux {α : Type} [DecidableEq α] {l : List α} :
    ∀ seen a, a ∈ dedupFirstAux seen l ↔ (a ∈ l ∧ a ∉ seen) := by
  induction l with
  | nil => intro seen a; simp [dedupFirstAux]
  | cons x xs ih =>
    intro seen a
    rw [dedupFirstAux]
    by_cases hx : x ∈ seen
    · rw [if_pos hx, ih seen a]
      constructor
      · exact fun ⟨h1, h2⟩ => ⟨List.mem_cons_of_mem x h1, h2⟩
      · rintro ⟨h1, h2⟩
        rcases List.mem_cons.mp h1 with rfl | h1
        · exact absurd hx h2
        · exact ⟨h1, h2⟩
    · rw [if_neg hx]
      by_cases hax : a = x
      · subst hax
        simp [hx]
      · simp only [List.mem_cons, hax, false_or, ih (x :: seen) a]

theorem mem_dedupFirst {α : Type} [DecidableEq α] {l : List α} {a : α} :
    a ∈ dedupFirst l ↔ a ∈ l := by
  rw [dedupFirst, mem_dedupFirstAux]
  simp

theorem dedupFirstAux_nodup {α : Type} [DecidableEq α] (l : List α) :
    ∀ seen, (dedupFirstAux seen l).Nodup := by
  induction l with
  | nil => intro seen; simp [dedupFirstAux]
  | cons x xs ih =>
    intro seen
    rw [dedupFirstAux]
    by_cases hx : x ∈ seen
    · rw [if_pos hx]
      exact ih seen
    · rw [if_neg hx]
      refine List.nodup_cons.mpr ⟨?_, ih (x :: seen)⟩
      intro hmem
      exact absurd (List.mem_cons_self x seen)
        ((mem_dedupFirstAux (x :: seen) x).mp hmem).2

theorem dedupFirst_nodup {α : Type} [DecidableEq α] (l : List α) :
    (dedupFirst l).Nodup := dedupFirstAux_nodup l []

theorem dedupFirstAux_eq_self {α : Type} [DecidableEq α] {l : List α} :
    ∀ seen, l.Nodup → (∀ x ∈ l, x ∉ seen) → dedupFirstAux seen l = l := by
  induction l with
  | nil => intro seen _ _; rfl
  | cons x xs ih =>
    intro seen hnd hdisj
    rcases List.nodup_cons.mp hnd with ⟨hx, hxs⟩
    rw [dedupFirstAux, if_neg (hdisj x (List.mem_cons_self x xs))]
    rw [ih (x :: seen) hxs]
    intro y hy
    intro hmem
    rcases List.mem_cons.mp hmem with rfl | h2
    · exact hx hy
    · exact hdisj y (List.mem_cons_of_mem x hy) h2

theorem dedupFirst_eq_self {α : Type} [DecidableEq α] {l : List α}
    (h : l.Nodup) : dedupFirst l = l :=
  dedupFirstAux_eq_self [] h (fun x _ hx => by cases hx)

/-- Stable insertion into a sorted list: the new element goes after every
element strictly smaller and before the first element greater or equal, so
elements inserted later end up after earlier equal elements. -/
def insOrd {α : Type} (lt : α → α → Bool) (x : α) : List α → List α
  | [] => [x]
  | y :: ys => if lt y x then y :: insOrd lt x ys else x :: y :: ys

/-- Stable insertion sort.  Embeds `DataFrame.sort_values` on several keys,
which pandas implements with the stable `numpy.lexsort` (the `kind` option
only applies to single-column sorts). -/
def insSort {α : Type} (lt : α → α → Bool) : List α → List α
  | [] => []
  | x :: xs => insOrd lt x (insSort lt xs)

theorem insOrd_perm {α : Type} (lt : α → α → Bool) (x : α) (l : List α) :
    List.Perm (insOrd lt x l) (x :: l) := by
  induction l with
  | nil => simp [insOrd]
  | cons y ys ih =>
    rw [insOrd]
    by_cases h : lt y x
    · simp only [h, if_true]
      exact ((ih.cons y).trans (List.Perm.swap x y ys))
    · simp [h]

theorem insSort_perm {α : Type} (lt : α → α → Bool) (l : List α) :
    List.Perm (insSort lt l) l := by
  induction l with
  | nil => simp [insSort]
  | cons x xs ih =>
    exact (insOrd_perm lt x (insSort lt xs)).trans (ih.cons x)

theorem insOrd_pairwise {α K : Type} [LinearOrder K] (k : α → K) (x : α)
    (l : List α) (hl : l.Pairwise (fun a b => k a ≤ k b)) :
    (insOrd (fun a b => decide (k a < k b)) x l).Pairwise
      (fun a b => k a ≤ k b) := by
  induction l with
  | nil => simp [insOrd]
  | cons y ys ih =>
    rw [insOrd]
    rcases List.pairwise_cons.mp hl with ⟨hy, hys⟩
    by_cases h : k y < k x
    · simp only [decide_eq_true_eq, h, if_true]
      refine List.pairwise_cons.mpr ⟨?_, ih hys⟩
      intro a ha
      have ha2 := (insOrd_perm (fun a b => decide (k a < k b)) x ys).mem_iff.mp ha
      rcases List.mem_cons.mp ha2 with rfl | hmem
      · exact le_of_lt h
      · exact hy a hmem
    · simp only [decide_eq_true_eq, h, if_false]
      refine List.pairwise_cons.mpr ⟨?_, hl⟩
      intro a ha
      rcases List.mem_cons.mp ha with rfl | hmem
      · exact le_of_not_lt h
      · exact le_trans (le_of_not_lt h) (hy a hmem)

theorem insSort_pairwise {α K : Type} [LinearOrder K] (k : α → K)
    (l : List α) :
    (insSort (fun a b => decide (k a < k b)) l).Pairwise
      (fun a b => k a ≤ k b) := by
  induction l with
  | nil => simp [insSort]
  | cons x xs ih => exact insOrd_pairwise k x _ ih

theorem filter_insOrd {α K : Type} [LinearOrder K] [DecidableEq K]
    (k : α → K) (c : K) (x : α) (l : List α) :
    (insOrd (fun a b => decide (k a < k b)) x l).filter
        (fun a => decide (k a = c)) =
      if k x = c then x :: l.filter (fun a => decide (k a = c))
      else l.filter (fun a => decide (k a = c)) := by
  induction l with
  | nil =>
    by_cases hx : k x = c <;> simp [insOrd, hx]
  | cons y ys ih =>
    rw [insOrd]
    by_cases h : k y < k x
    · simp only [decide_eq_true_eq, h, if_true]
      by_cases hy : k y = c
      · by_cases hx : k x = c
        · exfalso
          rw [hy, hx] at h
          exact lt_irrefl c h
        · simp [List.filter_cons, hy, hx, ih]
      · simp [List.filter_cons, hy, ih]
    · simp only [decide_eq_true_eq, h, if_false]
      by_cases hx : k x = c <;> simp [List.filter_cons, hx]

theorem filter_insSort {α K : Type} [LinearOrder K] [DecidableEq K]
    (k : α → K) (c : K) (l : List α) :
    (insSort (fun a b => decide (k a < k b)) l).filter
        (fun a => decide (k a = c)) =
      l.filter (fun a => decide (k a = c)) := by
  induction l with
  | nil => simp [insSort]
  | cons x xs ih =>
    rw [insSort, filter_insOrd]
    by_cases hx : k x = c <;> simp [List.filter_cons, hx, ih]

/-- Embedding of `Series.max()` on a nonempty series (pandas yields `NaN`
on an empty one; the `0` sentinel is never used by the callers below). -/
def listMax {α : Type} [LinearOrder α] [Zero α] : List α → α
  | [] => 0
  | x :: xs => xs.foldl max x

/-- Embedding of `Series.min()` on a nonempty series. -/
def listMin {α : Type} [LinearOrder α] [Zero α] : List α → α
  | [] => 0
  | x :: xs => xs.foldl min x

theorem le_foldl_max {α : Type} [LinearOrder α] (l : List α) :
    ∀ b a, (a = b ∨ a ∈ l) → a ≤ l.foldl max b := by
  induction l with
  | nil =>
    intro b a h
    rcases h with rfl | h
    · exact le_refl a
    · cases h
  | cons x xs ih =>
    intro b a h
    rw [List.foldl_cons]
    rcases h with rfl | h
    · exact le_trans (le_max_left a x) (ih (max a x) (max a x) (Or.inl rfl))
    · rcases List.mem_cons.mp h with rfl | h
      · exact le_trans (le_max_right b a) (ih (max b a) (max b a) (Or.inl rfl))
      · exact ih (max b x) a (Or.inr h)

theorem foldl_max_le {α : Type} [LinearOrder α] (l : List α) :
    ∀ b c, b ≤ c → (∀ x ∈ l, x ≤ c) → l.foldl max b ≤ c := by
  induction l with
  | nil => intro b c hb _; exact hb
  | cons x xs ih =>
    intro b c hb h
    rw [List.foldl_cons]
    exact ih (max b x) c (max_le hb (h x (List.mem_cons_self x xs)))
      (fun y hy => h y (List.mem_cons_of_mem x hy))

theorem foldl_max_mem {α : Type} [LinearOrder α] (l : List α) :
    ∀ b, l.foldl max b = b ∨ l.foldl max b ∈ l := by
  induction l with
  | nil => intro b; exact Or.inl rfl
  | cons x xs ih =>
    intro b
    rw [List.foldl_cons]
    rcases ih (max b x) with h | h
    · rw [h]
      rcases le_total b x with hbx | hxb
      · rw [max_eq_right hbx]
        exact Or.inr (List.mem_cons_self x xs)
      · rw [max_eq_left hxb]
        exact Or.inl rfl
    · exact Or.inr (List.mem_cons_of_mem x h)

theorem mem_le_listMax {α : Type} [LinearOrder α] [Zero α] {l : List α}
    {a : α} (h : a ∈ l) : a ≤ listMax l := by
  cases l with
  | nil => cases h
  | cons x xs =>
    rw [listMax]
    rcases List.mem_cons.mp h with rfl | h
    · exact le_foldl_max xs a a (Or.inl rfl)
    · exact le_foldl_max xs x a (Or.inr h)

theorem listMax_le {α : Type} [LinearOrder α] [Zero α] {l : List α} {c : α}
    (hne : l ≠ []) (h : ∀ x ∈ l, x ≤ c) : listMax l ≤ c := by
  cases l with
  | nil => exact absurd rfl hne
  | cons x xs =>
    exact foldl_max_le xs x c (h x (List.mem_cons_self x xs))
      (fun y hy => h y (List.mem_cons_of_mem x hy))

theorem listMax_mem {α : Type} [LinearOrder α] [Zero α] {l : List α}
    (hne : l ≠ []) : listMax l ∈ l := by
  cases l with
  | nil => exact absurd rfl hne
  | cons x xs =>
    rw [listMax]
    rcases foldl_max_mem xs x with h | h
    · rw [h]
      exact List.mem_cons_self x xs
    · exact List.mem_cons_of_mem x h

theorem foldl_min_le_mem {α : Type} [LinearOrder α] (l : List α) :
    ∀ b a, (a = b ∨ a ∈ l) → l.foldl min b ≤ a := by
  induction l with
  | nil =>
    intro b a h
    rcases h with rfl | h
    · exact le_refl a
    · cases h
  | cons x xs ih =>
    intro b a h
    rw [List.foldl_cons]
    rcases h with rfl | h
    · exact le_trans (ih (min a x) (min a x) (Or.inl rfl)) (min_le_left a x)
    · rcases List.mem_cons.mp h with rfl | h
      · exact le_trans (ih (min b a) (min b a) (Or.inl rfl)) (min_le_right b a)
      · exact ih (min b x) a (Or.inr h)

theorem listMin_le_mem {α : Type} [LinearOrder α] [Zero α] {l : List α}
    {a : α} (h : a ∈ l) : listMin l ≤ a := by
  cases l with
  | nil => cases h
  | cons x xs =>
    rw [listMin]
    rcases List.mem_cons.mp h with rfl | h
    · exact foldl_min_le_mem xs a a (Or.inl rfl)
    · exact foldl_min_le_mem xs x a (Or.inr h)

/-- Arithmetic mean of a list, the embedding of `Series.mean()`.
On the empty list this is `0 / 0 = 0`; callers only use it on nonempty
groups (a pandas group is never empty). -/
def meanL {α : Type} [DivisionRing α] (l : List α) : α :=
  l.sum / (l.length : α)

theorem list_sum_const {α : Type} [CommSemiring α] {l : List α} {c : α}
    (h : ∀ x ∈ l, x = c) : l.sum = (l.length : α) * c := by
  induction l with
  | nil => simp
  | cons x xs ih =>
    rw [List.sum_cons, h x (List.mem_cons_self x xs), List.length_cons,
      ih (fun y hy => h y (List.mem_cons_of_mem x hy))]
    push_cast
    ring

theorem meanL_const {α : Type} [Field α] [CharZero α] {l : List α}
    {c : α} (hne : l ≠ []) (h : ∀ x ∈ l, x = c) : meanL l = c := by
  have hlen : (l.length : α) ≠ 0 := by
    have h0 : l.length ≠ 0 := by
      simpa [List.length_eq_zero] using hne
    exact Nat.cast_ne_zero.mpr h0
  rw [meanL, list_sum_const h, mul_comm, mul_div_assoc, div_self hlen,
    mul_one]

/-! ## Numpy rounding

`Series.round(k)` rounds half to even (numpy/IEEE rounding).  It is
embedded on `ℝ` as an integer-valued rounding of `10^k * x`. -/

open scoped Classical in
/-- Round half to even: the integer rounding used by `numpy.round`. -/
noncomputable def rhe (x : ℝ) : ℤ :=
  if x - ⌊x⌋ < 1/2 then ⌊x⌋
  else if 1/2 < x - ⌊x⌋ then ⌊x⌋ + 1
  else if ⌊x⌋ % 2 = 0 then ⌊x⌋ else ⌊x⌋ + 1

/-- Embedding of `Series.round(2)`. -/
noncomputable def round2 (x : ℝ) : ℝ := (rhe (100 * x) : ℝ) / 100

/-- Embedding of `Series.round(4)`. -/
noncomputable def round4 (x : ℝ) : ℝ := (rhe (10000 * x) : ℝ) / 10000

theorem rhe_zero : rhe 0 = 0 := by
  rw [rhe]
  norm_num

theorem round2_zero : round2 0 = 0 := by
  rw [round2]
  norm_num [rhe_zero]

theorem rhe_nonneg {x : ℝ} (h : 0 ≤ x) : 0 ≤ rhe x := by
  have hf : (0 : ℤ) ≤ ⌊x⌋ := Int.floor_nonneg.mpr h
  rw [rhe]
  split
  · exact hf
  · split
    · omega
    · split <;> omega

theorem rhe_le_int {x : ℝ} {n : ℤ} (h : x ≤ n) : rhe x ≤ n := by
  have hf : ⌊x⌋ ≤ n := by
    calc ⌊x⌋ ≤ ⌊(n : ℝ)⌋ := Int.floor_mono h
      _ = n := Int.floor_intCast n
  have hfn : 1/2 ≤ x - ⌊x⌋ → ⌊x⌋ + 1 ≤ n := by
    intro h2
    have h3 : (⌊x⌋ : ℝ) < (n : ℝ) := by linarith
    have h4 : ⌊x⌋ < n := by exact_mod_cast h3
    omega
  rw [rhe]
  by_cases h1 : x - ⌊x⌋ < 1/2
  · rw [if_pos h1]
    exact hf
  · rw [if_neg h1]
    by_cases h2 : 1/2 < x - ⌊x⌋
    · rw [if_pos h2]
      exact hfn h2.le
    · rw [if_neg h2]
      have h5 := hfn (le_of_not_lt h1)
      split <;> omega

theorem round4_mem_unit {x : ℝ} (h0 : 0 ≤ x) (h1 : x ≤ 1) :
    0 ≤ round4 x ∧ round4 x ≤ 1 := by
  have ha : (0 : ℤ) ≤ rhe (10000 * x) := rhe_nonneg (by linarith)
  have hb : rhe (10000 * x) ≤ (10000 : ℤ) := by
    refine rhe_le_int ?_
    push_cast
    linarith
  constructor
  · rw [round4]
    positivity
  · rw [round4, div_le_one (by norm_num)]
    exact_mod_cast hb

/-! ## Python zero-padded decimal formatting -/

/-- Decimal digit character. -/
def digitChar10 (d : ℕ) : Char := Char.ofNat (48 + d)

/-- Big-endian decimal digit characters of a natural number (empty for 0),
the digit stream of Python's decimal formatting. -/
def decChars (n : ℕ) : List Char := ((Nat.digits 10 n).reverse).map digitChar10

/-- Embedding of the Python format expression `f"{x:05d}"` used for
surrogate keys (src/dimensoes.py line 33): the decimal representation
left-padded with zeros to a minimum width of five characters.  Numbers with
more than five digits keep all their digits. -/
def pad5 (n : ℕ) : String :=
  String.mk (List.replicate (5 - (decChars n).length) '0' ++ decChars n)

/-- Numeric value of a digit character. -/
def charVal (c : Char) : ℕ := c.toNat - 48

theorem charVal_digitChar10 {d : ℕ} (h : d < 10) :
    charVal (digitChar10 d) = d := by
  interval_cases d <;> decide

theorem ofDigits_replicate_zero (k : ℕ) :
    Nat.ofDigits 10 (List.replicate k 0) = 0 := by
  induction k with
  | zero => simp
  | succ k ih => simp [List.replicate_succ, Nat.ofDigits_cons, ih]

theorem map_charVal_decChars (n : ℕ) :
    (decChars n).map charVal = (Nat.digits 10 n).reverse := by
  rw [decChars, List.map_map]
  have hgen : ∀ l : List ℕ, (∀ d ∈ l, d < 10) →
      l.map (charVal ∘ digitChar10) = l := by
    intro l hl
    induction l with
    | nil => simp
    | cons d ds ih =>
      rw [List.map_cons, Function.comp_apply,
        charVal_digitChar10 (hl d (List.mem_cons_self d ds)),
        ih (fun e he => hl e (List.mem_cons_of_mem d he))]
  exact hgen _ (fun d hd =>
    Nat.digits_lt_base (by norm_num) (List.mem_reverse.mp hd))

theorem parse_pad5 (n : ℕ) :
    Nat.ofDigits 10 (((pad5 n).data.map charVal).reverse) = n := by
  have hdata : (pad5 n).data =
      List.replicate (5 - (decChars n).length) '0' ++ decChars n := rfl
  rw [hdata, List.map_append, List.map_replicate, List.reverse_append,
    List.reverse_replicate, map_charVal_decChars, List.reverse_reverse]
  have hzero : charVal '0' = 0 := rfl
  rw [hzero, Nat.ofDigits_append, Nat.ofDigits_digits,
    ofDigits_replicate_zero, mul_zero, add_zero]

theorem pad5_injective : Function.Injective pad5 := by
  intro m n h
  have := congrArg (fun s => Nat.ofDigits 10 ((s.data.map charVal).reverse)) h
  simpa [parse_pad5] using this

theorem pad5_length (n : ℕ) :
    (pad5 n).length = max 5 (Nat.digits 10 n).length := by
  have : (pad5 n).length =
      (List.replicate (5 - (decChars n).length) '0' ++ decChars n).length :=
    rfl
  rw [this, List.length_append, List.length_replicate, decChars,
    List.length_map, List.length_reverse]
  omega

/-! ## String helpers for the identity hash -/

/-- Embedding of `re.sub(r'\D', '', s)` : keep decimal digits only. -/
def digitsOnly (s : String) : String := String.mk (s.data.filter Char.isDigit)

/-- Embedding of the CNPJ-root computation of `calcular_hash_pedido`
(src/modelagem_dim.py lines 258-259): strip, remove non-digits, keep the
first eight characters. -/
def cnpjRaiz (s : String) : String := (digitsOnly s.trim).take 8

/-- Zero-padded decimal rendering of a natural number at minimum width. -/
def padNat (w n : ℕ) : String :=
  String.mk (List.replicate (w - (decChars n).length) '0' ++ decChars n)

/-! ## MD5 (the embedding of `hashlib.md5(...).hexdigest()`, RFC 1321)

Bytes are naturals below 256; 32-bit words are naturals reduced modulo
`2 ^ 32`. -/

/-- UTF-8 encoding of one character (`str.encode('utf-8')`). -/
def utf8Char (c : Char) : List ℕ :=
  let n := c.toNat
  if n < 128 then [n]
  else if n < 2048 then [192 + n / 64, 128 + n % 64]
  else if n < 65536 then
    [224 + n / 4096, 128 + (n / 64) % 64, 128 + n % 64]
  else
    [240 + n / 262144, 128 + (n / 4096) % 64, 128 + (n / 64) % 64,
      128 + n % 64]

/-- UTF-8 byte stream of a string. -/
def utf8Bytes (s : String) : List ℕ := (s.data.map utf8Char).flatten

/-- Reduction modulo `2 ^ 32`. -/
def w32 (n : ℕ) : ℕ := n % 4294967296

/-- 32-bit modular addition. -/
def wadd (a b : ℕ) : ℕ := w32 (a + b)

/-- 32-bit bitwise complement. -/
def wnot (a : ℕ) : ℕ := 4294967295 - a % 4294967296

/-- 32-bit left rotation by `s` bits. -/
def rotl (x s : ℕ) : ℕ := w32 (x * 2 ^ s) + x % 4294967296 / 2 ^ (32 - s)

/-- Per-round sine-table constants of MD5 (RFC 1321). -/
def md5K : List ℕ :=
  [0xd76aa478, 0xe8c7b756, 0x242070db, 0xc1bdceee,
   0xf57c0faf, 0x4787c62a, 0xa8304613, 0xfd469501,
   0x698098d8, 0x8b44f7af, 0xffff5bb1, 0x895cd7be,
   0x6b901122, 0xfd987193, 0xa679438e, 0x49b40821,
   0xf61e2562, 0xc040b340, 0x265e5a51, 0xe9b6c7aa,
   0xd62f105d, 0x02441453, 0xd8a1e681, 0xe7d3fbc8,
   0x21e1cde6, 0xc33707d6, 0xf4d50d87, 0x455a14ed,
   0xa9e3e905, 0xfcefa3f8, 0x676f02d9, 0x8d2a4c8a,
   0xfffa3942, 0x8771f681, 0x6d9d6122, 0xfde5380c,
   0xa4beea44, 0x4bdecfa9, 0xf6bb4b60, 0xbebfbc70,
   0x289b7ec6, 0xeaa127fa, 0xd4ef3085, 0x04881d05,
   0xd9d4d039, 0xe6db99e5, 0x1fa27cf8, 0xc4ac5665,
   0xf4292244, 0x432aff97, 0xab9423a7, 0xfc93a039,
   0x655b59c3, 0x8f0ccc92, 0xffeff47d, 0x85845dd1,
   0x6fa87e4f, 0xfe2ce6e0, 0xa3014314, 0x4e0811a1,
   0xf7537e82, 0xbd3af235, 0x2ad7d2bb, 0xeb86d391]

/-- Per-round shift amounts of MD5 (RFC 1321). -/
def md5S : List ℕ :=
  [7, 12, 17, 22, 7, 12, 17, 22, 7, 12, 17, 22, 7, 12, 17, 22,
   5, 9, 14, 20, 5, 9, 14, 20, 5, 9, 14, 20, 5, 9, 14, 20,
   4, 11, 16, 23, 4, 11, 16, 23, 4, 11, 16, 23, 4, 11, 16, 23,
   6, 10, 15, 21, 6, 10, 15, 21, 6, 10, 15, 21, 6, 10, 15, 21]

/-- Nonlinear mixing function of operation `i`. -/
def md5F (i b c d : ℕ) : ℕ :=
  if i < 16 then (b &&& c) ||| (wnot b &&& d)
  else if i < 32 then (d &&& b) ||| (wnot d &&& c)
  else if i < 48 then b ^^^ c ^^^ d
  else c ^^^ (b ||| wnot d)

/-- Message-word index of operation `i`. -/
def md5G (i : ℕ) : ℕ :=
  if i < 16 then i
  else if i < 32 then (5 * i + 1) % 16
  else if i < 48 then (3 * i + 5) % 16
  else (7 * i) % 16

/-- Little-endian 32-bit word starting at byte offset `j` of a block. -/
def leWord (block : List ℕ) (j : ℕ) : ℕ :=
  block.getD j 0 + 256 * block.getD (j + 1) 0 +
    65536 * block.getD (j + 2) 0 + 16777216 * block.getD (j + 3) 0

/-- One of the 64 MD5 operations on the state `(a, b, c, d)`. -/
def md5Step (block : List ℕ) (st : ℕ × ℕ × ℕ × ℕ) (i : ℕ) :
    ℕ × ℕ × ℕ × ℕ :=
  let f := wadd (wadd (md5F i st.2.1 st.2.2.1 st.2.2.2) st.1)
    (wadd (md5K.getD i 0) (leWord block (4 * md5G i)))
  (st.2.2.2, wadd st.2.1 (rotl f (md5S.getD i 0)), st.2.1, st.2.2.1)

/-- Process one 64-byte block. -/
def md5Block (st : ℕ × ℕ × ℕ × ℕ) (block : List ℕ) : ℕ × ℕ × ℕ × ℕ :=
  let r := (List.range 64).foldl (md5Step block) st
  (wadd st.1 r.1, wadd st.2.1 r.2.1, wadd st.2.2.1 r.2.2.1,
    wadd st.2.2.2 r.2.2.2)

/-- MD5 padding: a `0x80` byte, zeros to 56 mod 64, then the bit length as
a little-endian 64-bit integer. -/
def md5Pad (msg : List ℕ) : List ℕ :=
  msg ++ [128] ++ List.replicate ((119 - msg.length % 64) % 64) 0 ++
    (List.range 8).map (fun i => 8 * msg.length % 2 ^ 64 / 256 ^ i % 256)

/-- Split into 64-byte chunks. -/
def chunks64 (l : List ℕ) : List (List ℕ) :=
  if hl : l = [] then [] else l.take 64 :: chunks64 (l.drop 64)
termination_by l.length
decreasing_by
  have hlen : l.length ≠ 0 := by
    simpa [List.length_eq_zero] using hl
  simp only [List.length_drop]
  omega

/-- Lower-case hexadecimal digit. -/
def hexDig (n : ℕ) : Char :=
  if n < 10 then Char.ofNat (48 + n) else Char.ofNat (87 + n)

/-- Two hexadecimal characters of one byte. -/
def hexByte (b : ℕ) : List Char := [hexDig (b / 16), hexDig (b % 16)]

/-- Little-endian bytes of a 32-bit word. -/
def wordLEBytes (w : ℕ) : List ℕ :=
  [w % 256, w / 256 % 256, w / 65536 % 256, w / 16777216 % 256]

/-- MD5 hex digest of a byte stream: the embedding of
`hashlib.md5(bytes).hexdigest()`. -/
def md5Hex (msg : List ℕ) : String :=
  let fin := (chunks64 (md5Pad msg)).foldl md5Block
    (0x67452301, 0xefcdab89, 0x98badcfe, 0x10325476)
  String.mk ((((wordLEBytes fin.1 ++ wordLEBytes fin.2.1 ++
    wordLEBytes fin.2.2.1 ++ wordLEBytes fin.2.2.2).map hexByte).flatten))

/-! ## Data model: rows and data frames -/

/-- Calendar date, the embedding of a valid `pandas.Timestamp` produced by
`pd.to_datetime` on day-resolution source data (time part midnight).
An unparseable date (`NaT`) is embedded as `none` at the use sites. -/
structure Date where
  y : ℕ
  m : ℕ
  d : ℕ
deriving DecidableEq, Repr

/-- Embedding of Python `str(ts)` on such a Timestamp
(`'YYYY-MM-DD 00:00:00'`) and on `NaT` (`'NaT'`). -/
def dateStr : Option Date → String
  | none => "NaT"
  | some t =>
    padNat 4 t.y ++ "-" ++ padNat 2 t.m ++ "-" ++ padNat 2 t.d ++
      " 00:00:00"

/-- Embedding of Python `str()` on a float-valued column entry.  The
properties under verification depend only on `str` being a function and on
the surrounding delimiter structure, never on the exact float formatting;
the rendering is therefore canonical: integral values print with a
trailing `.0` as Python floats do, other rationals print exactly. -/
def pyFloatStr (q : ℚ) : String :=
  if q.den = 1 then toString q.num ++ ".0"
  else toString q.num ++ "/" ++ toString q.den

/-- One row of the fact-in-progress table.  Each field carries the value of
the like-named pandas column (names that are not valid Lean identifiers
are transliterated: `mesesCompradosHistorico` is `Meses_Comprados_Historico`,
`riscoIntermitencia` is `Risco_Intermitencia`, `pctGastoUnicoForn` is the
column labelled percent `_Gasto_Unico_Forn`).  A field is meaningful only
when its column name is present in the frame's column list. -/
structure Row where
  nome_instituicao : String := ""
  cnpj_instituicao : String := ""
  municipio_instituicao : String := ""
  uf : String := ""
  compra : Option Date := none
  insercao : Option Date := none
  codigo_br : String := ""
  descricao_catmat : String := ""
  generico : String := ""
  unidade_fornecimento : String := ""
  unidade_fornecimento_capacidade : String := ""
  capacidade : ℚ := 0
  unidade_medida : String := ""
  cnpj_fornecedor : String := ""
  fornecedor : String := ""
  cnpj_fabricante : String := ""
  fabricante : String := ""
  qtd_itens_comprados : ℚ := 0
  preco_unitario : ℚ := 0
  preco_total : ℚ := 0
  modalidade_compra : String := ""
  tipo_compra : String := ""
  id_pedido : String := ""
  id_instituicao : String := ""
  id_produto : String := ""
  id_fornecedor : String := ""
  id_fabricante : String := ""
  id_tempo : Option ℕ := none
  data_compra : Option Date := none
  ano_compra : Option ℕ := none
  pmp_individual : ℚ := 0
  pmp_medio : Option ℚ := none
  pmp_desvio_padrao : ℝ := ((0 : ℚ) : ℝ)
  score_z_risco : ℝ := ((0 : ℚ) : ℝ)
  mes_compra : Option ℤ := none
  mesesCompradosHistorico : ℕ := 0
  riscoIntermitencia : ℚ := 0
  pctGastoUnicoForn : ℚ := 0
  indice_priorizacao : ℝ := ((0 : ℚ) : ℝ)
  demanda_valor : ℚ := 0

/-- The embedding of a `pandas.DataFrame`: the ordered column-label index
plus the rows. -/
structure DF where
  cols : List String
  rows : List Row

/-- Column-label effect of an assignment `df[name] = ...` : an existing
label keeps its position, a new one is appended at the end. -/
def insertCol (cs : List String) (c : String) : List String :=
  if c ∈ cs then cs else cs ++ [c]

/-- Iterated `insertCol` for several successive column assignments. -/
def insertCols (cs : List String) (new : List String) : List String :=
  new.foldl insertCol cs

theorem mem_insertCol {cs : List String} {c a : String} :
    a ∈ insertCol cs c ↔ a ∈ cs ∨ a = c := by
  rw [insertCol]
  by_cases h : c ∈ cs
  · rw [if_pos h]
    constructor
    · exact Or.inl
    · rintro (h1 | rfl)
      · exact h1
      · exact h
  · rw [if_neg h]
    simp

theorem mem_insertCols {cs : List String} {new : List String} {a : String} :
    a ∈ insertCols cs new ↔ a ∈ cs ∨ a ∈ new := by
  induction new generalizing cs with
  | nil => simp [insertCols]
  | cons c cs2 ih =>
    rw [insertCols, List.foldl_cons]
    have h2 := @ih (insertCol cs c)
    rw [insertCols] at h2
    rw [h2, mem_insertCol]
    simp only [List.mem_cons]
    tauto

/-- Boolean column-presence check, the embedding of
`all(col in df.columns for col in req)`. -/
def hasCols (df : DF) (req : List String) : Bool :=
  req.all (fun c => decide (c ∈ df.cols))

theorem hasCols_iff {df : DF} {req : List String} :
    hasCols df req = true ↔ ∀ c ∈ req, c ∈ df.cols := by
  simp [hasCols]

/-! ## Function 1: price-risk z-score (src/modelagem_dim.py lines 17-66) -/

/-- Required columns of the z-score stage (line 24). -/
def zscoreCols : List String :=
  ["compra", "codigo_br", "preco_total", "qtd_itens_comprados"]

/-- Per-row weighted unit price `pmp_individual` (lines 32-36):
`np.where(qtd > 0, preco_total / qtd, 0)`. -/
def pmpOf (r : Row) : ℚ :=
  if 0 < r.qtd_itens_comprados then r.preco_total / r.qtd_itens_comprados
  else 0

/-- Lines 29-36: derive the purchase year (null for `NaT`, as
`dt.year` of a missing date is null) and the weighted unit price. -/
def zscorePrep (rows : List Row) : List Row :=
  rows.map (fun r =>
    { r with
      ano_compra := r.compra.map Date.y
      pmp_individual := pmpOf r })

/-- The `pmp_individual` series of the (codigo_br, ano_compra) group of a
row, i.e. the group of the `groupby(['codigo_br', 'ano_compra'])`
transforms at lines 46-49.  Only evaluated for rows with a non-null
`ano_compra`; pandas drops null group keys. -/
def grupoPmps (ctx : List Row) (r : Row) : List ℚ :=
  (ctx.filter (fun s =>
    decide (s.codigo_br = r.codigo_br ∧ s.ano_compra = r.ano_compra))).map
    (fun s => s.pmp_individual)

/-- Sample variance of a group (`ddof = 1`, the pandas `std` default,
squared).  Pandas yields `NaN` on a one-element group, which the
`fillna(0)` at line 55 maps to zero; the size guard realises that. -/
def sampleVar (l : List ℚ) : ℚ :=
  if l.length ≤ 1 then 0
  else (l.map (fun x => (x - meanL l) ^ 2)).sum / ((l.length : ℚ) - 1)

/-- Sample standard deviation broadcast by `transform('std')` at line 49,
after the `fillna(0)` of line 55. -/
noncomputable def sampleStd (l : List ℚ) : ℝ :=
  Real.sqrt ((sampleVar l : ℚ) : ℝ)

/-- Lines 46-64 for one row: broadcast the group mean and deviation, then
the z-score (`np.where` over a positive deviation, line 58) rounded to two
decimals (line 64).  Rows with a null year fall outside every group: their
broadcast mean stays null and their deviation is null, hence `0` after
`fillna(0)`. -/
noncomputable def zscoreEnrich (ctx : List Row) (r : Row) : Row :=
  let medio : Option ℚ :=
    r.ano_compra.map (fun _ => meanL (grupoPmps ctx r))
  let desvio : ℝ :=
    match r.ano_compra with
    | none => ((0 : ℚ) : ℝ)
    | some _ => sampleStd (grupoPmps ctx r)
  { r with
    pmp_medio := medio
    pmp_desvio_padrao := desvio
    score_z_risco :=
      round2 (if 0 < desvio
        then (((r.pmp_individual : ℚ) : ℝ) - ((medio.getD 0 : ℚ) : ℝ)) /
          desvio
        else ((0 : ℚ) : ℝ)) }

/-- Embedding of `calcular_zscore_risco` (src/modelagem_dim.py lines
17-66).  When any required column is missing the stage is a no-op that
returns the input unchanged (lines 24-26). -/
noncomputable def calcular_zscore_risco (df : DF) : DF :=
  if hasCols df zscoreCols then
    let ctx := zscorePrep df.rows
    { cols := insertCols df.cols
        ["ano_compra", "pmp_individual", "pmp_medio", "pmp_desvio_padrao",
          "score_z_risco"]
      rows := ctx.map (zscoreEnrich ctx) }
  else df

/-- Z-score group of a row described directly on the input table: the
weighted unit prices of the rows sharing the catalogue code and the
purchase year. -/
def grupoFato (rows : List Row) (c : String) (y : ℕ) : List ℚ :=
  (rows.filter (fun s =>
    decide (s.codigo_br = c ∧ s.compra.map Date.y = some y))).map pmpOf

theorem sampleVar_nonneg (l : List ℚ) : 0 ≤ sampleVar l := by
  rw [sampleVar]
  split
  · exact le_refl 0
  · rename_i h
    have hnum : 0 ≤ (l.map (fun x => (x - meanL l) ^ 2)).sum := by
      refine List.sum_nonneg ?_
      intro x hx
      rcases List.mem_map.mp hx with ⟨y, _, rfl⟩
      positivity
    have hden : (0 : ℚ) ≤ (l.length : ℚ) - 1 := by
      have h2 : 2 ≤ l.length := by omega
      have : (2 : ℚ) ≤ (l.length : ℚ) := by exact_mod_cast h2
      linarith
    positivity

theorem sampleStd_pos_iff (l : List ℚ) :
    0 < sampleStd l ↔ 0 < sampleVar l := by
  rw [sampleStd, Real.sqrt_pos]
  exact_mod_cast Iff.rfl

theorem sampleVar_singleton {l : List ℚ} (h : l.length = 1) :
    sampleVar l = 0 := by
  rw [sampleVar, if_pos (by omega)]

theorem sampleVar_const {l : List ℚ}
    (h : ∀ x ∈ l, ∀ z ∈ l, x = z) : sampleVar l = 0 := by
  rw [sampleVar]
  split
  · rfl
  · rename_i hlen
    have hne : l ≠ [] := by
      intro h0
      rw [h0] at hlen
      simp at hlen
    obtain ⟨c, hc⟩ : ∃ c, c ∈ l := by
      cases l with
      | nil => exact absurd rfl hne
      | cons x xs => exact ⟨x, List.mem_cons_self x xs⟩
    have hall : ∀ x ∈ l, x = c := fun x hx => h x hx c hc
    have hmean : meanL l = c := meanL_const hne hall
    have hzero : (l.map (fun x => (x - meanL l) ^ 2)).sum = 0 := by
      refine List.sum_eq_zero ?_
      intro x hx
      rcases List.mem_map.mp hx with ⟨y, hy, rfl⟩
      rw [hmean, hall y hy]
      ring
    rw [hzero, zero_div]

theorem sampleStd_eq_zero_of_var {l : List ℚ} (h : sampleVar l = 0) :
    sampleStd l = 0 := by
  rw [sampleStd, h]
  simp

theorem filter_of_map {α β : Type} (f : α → β) (p : β → Bool)
    (l : List α) :
    (l.map f).filter p = (l.filter (fun a => p (f a))).map f := by
  induction l with
  | nil => rfl
  | cons x xs ih =>
    rw [List.map_cons, List.filter_cons, List.filter_cons]
    by_cases h : p (f x)
    · rw [if_pos h, if_pos h, List.map_cons, ih]
    · rw [if_neg h, if_neg h, ih]

theorem getD_map {α β : Type} (f : α → β) (l : List α) (i : ℕ) (d : β)
    (d0 : α) (hi : i < l.length) :
    (l.map f).getD i d = f (l.getD i d0) := by
  have h2 : i < (l.map f).length := by simpa using hi
  rw [List.getD_eq_getElem _ _ h2, List.getD_eq_getElem _ _ hi,
    List.getElem_map]

/-- Default row (every column at its null/zero sentinel). -/
noncomputable def row0 : Row := {}

/-- The row transform of lines 29-36 (year derivation and weighted unit
price). -/
def prepRow (r : Row) : Row :=
  { r with
    ano_compra := r.compra.map Date.y
    pmp_individual := pmpOf r }

theorem zscorePrep_eq_map (rows : List Row) :
    zscorePrep rows = rows.map prepRow := rfl

theorem grupoPmps_prep (rows : List Row) (r : Row) (t : Date)
    (h : r.compra = some t) :
    grupoPmps (zscorePrep rows) (prepRow r) =
      grupoFato rows r.codigo_br t.y := by
  rw [grupoPmps, grupoFato, zscorePrep_eq_map, filter_of_map, List.map_map]
  have hpred : ∀ s : Row,
      (decide ((prepRow s).codigo_br = (prepRow r).codigo_br ∧
        (prepRow s).ano_compra = (prepRow r).ano_compra)) =
      (decide (s.codigo_br = r.codigo_br ∧
        s.compra.map Date.y = some t.y)) := by
    intro s
    simp only [prepRow, h, Option.map_some']
  have hmap : ∀ s : Row, ((fun s : Row => s.pmp_individual) ∘ prepRow) s =
      pmpOf s := fun s => rfl
  rw [List.filter_congr (fun s _ => hpred s)]
  exact List.map_congr_left (fun s _ => hmap s)

theorem zscore_happy (df : DF) (h : hasCols df zscoreCols = true) :
    calcular_zscore_risco df =
      { cols := insertCols df.cols
          ["ano_compra", "pmp_individual", "pmp_medio",
            "pmp_desvio_padrao", "score_z_risco"]
        rows := df.rows.map
          (fun r => zscoreEnrich (zscorePrep df.rows) (prepRow r)) } := by
  rw [calcular_zscore_risco, if_pos h]
  simp only [zscorePrep_eq_map, List.map_map]
  rfl

theorem zscoreEnrich_score_some (rows : List Row) (r : Row) (t : Date)
    (h : r.compra = some t) :
    (zscoreEnrich (zscorePrep rows) (prepRow r)).score_z_risco =
      (if 0 < sampleStd (grupoFato rows r.codigo_br t.y)
       then round2 ((((pmpOf r : ℚ) : ℝ) -
         ((meanL (grupoFato rows r.codigo_br t.y) : ℚ) : ℝ)) /
         sampleStd (grupoFato rows r.codigo_br t.y))
       else 0) := by
  have hano : (prepRow r).ano_compra = some t.y := by
    rw [prepRow]
    simp [h]
  have hg := grupoPmps_prep rows r t h
  rw [zscoreEnrich]
  simp only [hano, hg, Option.map_some', Option.getD_some]
  by_cases hpos : 0 < sampleStd (grupoFato rows r.codigo_br t.y)
  · rw [if_pos hpos, if_pos hpos]
    rfl
  · rw [if_neg hpos, if_neg hpos]
    simpa using round2_zero

theorem zscoreEnrich_score_none (rows : List Row) (r : Row)
    (h : r.compra = none) :
    (zscoreEnrich (zscorePrep rows) (prepRow r)).score_z_risco = 0 := by
  have hano : (prepRow r).ano_compra = none := by
    rw [prepRow]
    simp [h]
  rw [zscoreEnrich]
  simp only [hano]
  have h0 : ¬ (0 : ℝ) < ((0 : ℚ) : ℝ) := by simp
  rw [if_neg h0]
  simpa using round2_zero

/-- C1: for every fact row, `calcular_zscore_risco` sets `score_z_risco`
to `(pmp_individual - group mean) / group standard deviation` rounded to
two decimal places when the (codigo_br, purchase-year) group's standard
deviation is strictly positive, and to `0` otherwise, where
`pmp_individual` is `preco_total / qtd_itens_comprados` for a positive
quantity and `0` otherwise (`pmpOf`); in particular every row of a
singleton group, or of a group whose weighted unit prices are all equal,
gets a zero score, and a row with a null purchase date gets `0`. -/
theorem C1_zscore_per_row (df : DF) (h : hasCols df zscoreCols = true) :
    (calcular_zscore_risco df).rows.length = df.rows.length ∧
    ∀ i, i < df.rows.length →
      (∀ t, (df.rows.getD i row0).compra = some t →
        ∀ g, g = grupoFato df.rows (df.rows.getD i row0).codigo_br t.y →
          (((calcular_zscore_risco df).rows.getD i row0).score_z_risco =
            (if 0 < sampleStd g
             then round2 ((((pmpOf (df.rows.getD i row0) : ℚ) : ℝ) -
               ((meanL g : ℚ) : ℝ)) / sampleStd g)
             else 0)) ∧
          (g.length = 1 →
            ((calcular_zscore_risco df).rows.getD i row0).score_z_risco
              = 0) ∧
          ((∀ x ∈ g, ∀ z ∈ g, x = z) →
            ((calcular_zscore_risco df).rows.getD i row0).score_z_risco
              = 0)) ∧
      ((df.rows.getD i row0).compra = none →
        ((calcular_zscore_risco df).rows.getD i row0).score_z_risco = 0)
    := by
  have hrows : (calcular_zscore_risco df).rows = df.rows.map
      (fun r => zscoreEnrich (zscorePrep df.rows) (prepRow r)) := by
    rw [zscore_happy df h]
  constructor
  · rw [hrows]
    simp
  · intro i hi
    have hout : (calcular_zscore_risco df).rows.getD i row0 =
        zscoreEnrich (zscorePrep df.rows)
          (prepRow (df.rows.getD i row0)) := by
      rw [hrows]
      exact getD_map _ _ i row0 row0 hi
    refine ⟨?_, ?_⟩
    · intro t ht g hg
      subst hg
      have hscore :=
        zscoreEnrich_score_some df.rows (df.rows.getD i row0) t ht
      refine ⟨by rw [hout]; exact hscore, ?_, ?_⟩
      · intro hlen
        have hstd := sampleStd_eq_zero_of_var (sampleVar_singleton hlen)
        have hneg : ¬ (0 : ℝ) < sampleStd
            (grupoFato df.rows (df.rows.getD i row0).codigo_br t.y) := by
          rw [hstd]
          exact lt_irrefl 0
        rw [hout, hscore, if_neg hneg]
      · intro hconst
        have hstd := sampleStd_eq_zero_of_var (sampleVar_const hconst)
        have hneg : ¬ (0 : ℝ) < sampleStd
            (grupoFato df.rows (df.rows.getD i row0).codigo_br t.y) := by
          rw [hstd]
          exact lt_irrefl 0
        rw [hout, hscore, if_neg hneg]
    · intro hnone
      rw [hout]
      exact zscoreEnrich_score_none df.rows _ hnone

/-- Concrete three-row fact table for the z-score witnesses: one
(codigo_br, year) group with weighted unit prices 13, 20 and 27. -/
noncomputable def dfZ : DF :=
  { cols := ["compra", "codigo_br", "preco_total", "qtd_itens_comprados"]
    rows :=
      [{ compra := some ⟨2024, 1, 10⟩, codigo_br := "123",
         preco_total := 13, qtd_itens_comprados := 1 },
       { compra := some ⟨2024, 2, 10⟩, codigo_br := "123",
         preco_total := 20, qtd_itens_comprados := 1 },
       { compra := some ⟨2024, 3, 10⟩, codigo_br := "123",
         preco_total := 27, qtd_itens_comprados := 1 }] }

/-- Witness for C1 at the concrete table `dfZ`. -/
theorem C1_zscore_per_row_witness :
    hasCols dfZ zscoreCols = true ∧
    ((calcular_zscore_risco dfZ).rows.length = dfZ.rows.length ∧
    ∀ i, i < dfZ.rows.length →
      (∀ t, (dfZ.rows.getD i row0).compra = some t →
        ∀ g, g = grupoFato dfZ.rows (dfZ.rows.getD i row0).codigo_br t.y →
          (((calcular_zscore_risco dfZ).rows.getD i row0).score_z_risco =
            (if 0 < sampleStd g
             then round2 ((((pmpOf (dfZ.rows.getD i row0) : ℚ) : ℝ) -
               ((meanL g : ℚ) : ℝ)) / sampleStd g)
             else 0)) ∧
          (g.length = 1 →
            ((calcular_zscore_risco dfZ).rows.getD i row0).score_z_risco
              = 0) ∧
          ((∀ x ∈ g, ∀ z ∈ g, x = z) →
            ((calcular_zscore_risco dfZ).rows.getD i row0).score_z_risco
              = 0)) ∧
      ((dfZ.rows.getD i row0).compra = none →
        ((calcular_zscore_risco dfZ).rows.getD i row0).score_z_risco = 0))
    :=
  ⟨by decide, C1_zscore_per_row dfZ (by decide)⟩

/-- Normaliser that resets exactly the five columns written by the z-score
stage; equality of two rows under it states that every other column
coincides. -/
def unsetZscoreFields (r : Row) : Row :=
  { r with
    ano_compra := none
    pmp_individual := 0
    pmp_medio := none
    pmp_desvio_padrao := ((0 : ℚ) : ℝ)
    score_z_risco := ((0 : ℚ) : ℝ) }

/-- C10: besides `score_z_risco`, the z-score stage adds the four
auxiliary columns `ano_compra`, `pmp_individual`, `pmp_medio` and
`pmp_desvio_padrao`, never removes them (they are present in the output
column list, which is the input list with the five labels appended when
absent), and leaves the value of every pre-existing column unchanged. -/
theorem C10_zscore_frame (df : DF) (h : hasCols df zscoreCols = true) :
    (calcular_zscore_risco df).cols =
      insertCols df.cols
        ["ano_compra", "pmp_individual", "pmp_medio", "pmp_desvio_padrao",
          "score_z_risco"] ∧
    (∀ c ∈ df.cols, c ∈ (calcular_zscore_risco df).cols) ∧
    "ano_compra" ∈ (calcular_zscore_risco df).cols ∧
    "pmp_individual" ∈ (calcular_zscore_risco df).cols ∧
    "pmp_medio" ∈ (calcular_zscore_risco df).cols ∧
    "pmp_desvio_padrao" ∈ (calcular_zscore_risco df).cols ∧
    (calcular_zscore_risco df).rows.length = df.rows.length ∧
    (∀ i, i < df.rows.length →
      unsetZscoreFields ((calcular_zscore_risco df).rows.getD i row0) =
        unsetZscoreFields (df.rows.getD i row0)) := by
  rw [zscore_happy df h]
  refine ⟨rfl, ?_, ?_, ?_, ?_, ?_, ?_, ?_⟩
  · intro c hc
    exact mem_insertCols.mpr (Or.inl hc)
  · exact mem_insertCols.mpr (Or.inr (by simp))
  · exact mem_insertCols.mpr (Or.inr (by simp))
  · exact mem_insertCols.mpr (Or.inr (by simp))
  · exact mem_insertCols.mpr (Or.inr (by simp))
  · simp
  · intro i hi
    have hmap : (df.rows.map
        (fun r => zscoreEnrich (zscorePrep df.rows) (prepRow r))).getD
          i row0 =
        zscoreEnrich (zscorePrep df.rows)
          (prepRow (df.rows.getD i row0)) :=
      getD_map _ _ i row0 row0 hi
    show unsetZscoreFields ((df.rows.map
        (fun r => zscoreEnrich (zscorePrep df.rows) (prepRow r))).getD
          i row0) = unsetZscoreFields (df.rows.getD i row0)
    rw [hmap]
    rfl

/-- Witness for C10 at the concrete table `dfZ`. -/
theorem C10_zscore_frame_witness :
    hasCols dfZ zscoreCols = true ∧
    ((calcular_zscore_risco dfZ).cols =
      insertCols dfZ.cols
        ["ano_compra", "pmp_individual", "pmp_medio", "pmp_desvio_padrao",
          "score_z_risco"] ∧
    (∀ c ∈ dfZ.cols, c ∈ (calcular_zscore_risco dfZ).cols) ∧
    "ano_compra" ∈ (calcular_zscore_risco dfZ).cols ∧
    "pmp_individual" ∈ (calcular_zscore_risco dfZ).cols ∧
    "pmp_medio" ∈ (calcular_zscore_risco dfZ).cols ∧
    "pmp_desvio_padrao" ∈ (calcular_zscore_risco dfZ).cols ∧
    (calcular_zscore_risco dfZ).rows.length = dfZ.rows.length ∧
    (∀ i, i < dfZ.rows.length →
      unsetZscoreFields ((calcular_zscore_risco dfZ).rows.getD i row0) =
        unsetZscoreFields (dfZ.rows.getD i row0))) :=
  ⟨by decide, C10_zscore_frame dfZ (by decide)⟩

/-! ## Function 2: demand-intermittency risk
(src/modelagem_dim.py lines 72-123) -/

/-- Month-period bucket of a date, the embedding of
`Series.dt.to_period('M')` (line 91): the linearised month ordinal
`12 * year + (month - 1)`.  Pandas periods compare, subtract and expose
`year = ordinal / 12` and `month = ordinal % 12 + 1` exactly through this
ordinal (up to the epoch shift, which cancels in every difference). -/
def mesOrd (t : Date) : ℤ := 12 * (t.y : ℤ) + ((t.m : ℤ) - 1)

/-- Number of distinct non-null month buckets in which a product appears:
the embedding of `df.groupby('id_produto')['mes_compra'].nunique()`
(line 94, `nunique` ignores nulls), evaluated on rows that already carry
`mes_compra`. -/
def mesesAtivos (rows : List Row) (p : String) : ℕ :=
  (dedupFirst ((rows.filter (fun s => decide (s.id_produto = p))).filterMap
    (fun s => s.mes_compra))).length

/-- Global observation window in months, inclusive (line 104):
`(year_max - year_min) * 12 + month_max - month_min + 1` computed from the
bucket ordinals. -/
def periodoTotalMeses (omin omax : ℤ) : ℤ :=
  (omax / 12 - omin / 12) * 12 + (omax % 12 - omin % 12) + 1

theorem periodoTotalMeses_eq (omin omax : ℤ) :
    periodoTotalMeses omin omax = omax - omin + 1 := by
  rw [periodoTotalMeses]
  omega

/-- Line 91 for one row: attach the month bucket (null for `NaT`). -/
def mesRow (r : Row) : Row :=
  { r with mes_compra := r.data_compra.map mesOrd }

/-- Lines 94-119 for one row of the bucketed table `rows1`: the month
count of the row's product and the merged risk
`np.where(periodo > 0, 1 - meses / periodo, 0)`. -/
def intermEnrich (rows1 : List Row) (r : Row) : Row :=
  { r with
    mesesCompradosHistorico := mesesAtivos rows1 r.id_produto
    riscoIntermitencia :=
      if 0 < periodoTotalMeses
          (listMin (rows1.filterMap (fun s => s.mes_compra)))
          (listMax (rows1.filterMap (fun s => s.mes_compra)))
      then 1 - ((mesesAtivos rows1 r.id_produto : ℚ) /
        ((periodoTotalMeses
          (listMin (rows1.filterMap (fun s => s.mes_compra)))
          (listMax (rows1.filterMap (fun s => s.mes_compra)))) : ℚ))
      else 0 }

/-- Embedding of `calcular_risco_intermitencia` (src/modelagem_dim.py
lines 72-123).  Missing `data_compra` column: no-op (lines 83-85).  The
dtype coercion of lines 87-89 is the identity here because `data_compra`
is embedded already parsed.  When no valid month bucket exists, the
`min`/`max` of lines 98-99 are null and line 102 returns the frame — which
at that point already carries the `mes_compra` column assigned at line 91.
Otherwise the merged risk of lines 107-119 is attached to every row (the
left join on `id_produto` always matches, because the aggregate table is
grouped from the same frame) and `mes_compra` is dropped (line 121). -/
def calcular_risco_intermitencia (df : DF) : DF :=
  if "data_compra" ∈ df.cols then
    if (df.rows.map mesRow).filterMap (fun s => s.mes_compra) = [] then
      { cols := insertCol df.cols "mes_compra"
        rows := df.rows.map mesRow }
    else
      { cols := (insertCols (insertCol df.cols "mes_compra")
          ["Risco_Intermitencia", "Meses_Comprados_Historico"]).erase
            "mes_compra"
        rows := (df.rows.map mesRow).map
          (intermEnrich (df.rows.map mesRow)) }
  else df

/-- Month buckets of the whole table, described on the input rows. -/
def janelaMeses (rows : List Row) : List ℤ :=
  rows.filterMap (fun s => s.data_compra.map mesOrd)

/-- Distinct month buckets of one product, described on the input rows. -/
def mesesAtivosFato (rows : List Row) (p : String) : ℕ :=
  (dedupFirst ((rows.filter (fun s => decide (s.id_produto = p))).filterMap
    (fun s => s.data_compra.map mesOrd))).length

theorem dedup_length_le_window {l : List ℤ} {a b : ℤ} (hab : a ≤ b)
    (h : ∀ x ∈ l, a ≤ x ∧ x ≤ b) :
    ((dedupFirst l).length : ℤ) ≤ b - a + 1 := by
  classical
  have hnd := dedupFirst_nodup l
  have hsub : (dedupFirst l).toFinset ⊆ Finset.Icc a b := by
    intro x hx
    rw [List.mem_toFinset] at hx
    exact Finset.mem_Icc.mpr (h x (mem_dedupFirst.mp hx))
  have hcard : (dedupFirst l).toFinset.card ≤ (Finset.Icc a b).card :=
    Finset.card_le_card hsub
  rw [List.toFinset_card_of_nodup hnd, Int.card_Icc] at hcard
  have h2 : ((b + 1 - a).toNat : ℤ) = b + 1 - a :=
    Int.toNat_of_nonneg (by omega)
  have h3 : ((dedupFirst l).length : ℤ) ≤ ((b + 1 - a).toNat : ℤ) := by
    exact_mod_cast hcard
  omega

theorem janela_transport (rows : List Row) :
    (rows.map mesRow).filterMap (fun s => s.mes_compra) =
      janelaMeses rows := by
  rw [List.filterMap_map]
  rfl

theorem mesesAtivos_transport (rows : List Row) (p : String) :
    mesesAtivos (rows.map mesRow) p = mesesAtivosFato rows p := by
  rw [mesesAtivos, mesesAtivosFato, filter_of_map, List.filterMap_map]
  rfl

theorem mesesAtivosFato_le (rows : List Row) (p : String)
    (hne : janelaMeses rows ≠ []) :
    ((mesesAtivosFato rows p : ℤ)) ≤
      periodoTotalMeses (listMin (janelaMeses rows))
        (listMax (janelaMeses rows)) := by
  obtain ⟨e, he⟩ := List.exists_mem_of_ne_nil _ hne
  have hom_le : listMin (janelaMeses rows) ≤ listMax (janelaMeses rows) :=
    le_trans (listMin_le_mem he) (mem_le_listMax he)
  rw [periodoTotalMeses_eq]
  refine dedup_length_le_window hom_le ?_
  intro x hx
  have hxj : x ∈ janelaMeses rows := by
    rcases List.mem_filterMap.mp hx with ⟨s, hs, hgs⟩
    exact List.mem_filterMap.mpr ⟨s, List.mem_of_mem_filter hs, hgs⟩
  exact ⟨listMin_le_mem hxj, mem_le_listMax hxj⟩

theorem periodo_pos (rows : List Row) (hne : janelaMeses rows ≠ []) :
    0 < periodoTotalMeses (listMin (janelaMeses rows))
      (listMax (janelaMeses rows)) := by
  obtain ⟨e, he⟩ := List.exists_mem_of_ne_nil _ hne
  have hom_le : listMin (janelaMeses rows) ≤ listMax (janelaMeses rows) :=
    le_trans (listMin_le_mem he) (mem_le_listMax he)
  rw [periodoTotalMeses_eq]
  omega

theorem interm_happy (df : DF) (h : "data_compra" ∈ df.cols)
    (hne : janelaMeses df.rows ≠ []) :
    calcular_risco_intermitencia df =
      { cols := (insertCols (insertCol df.cols "mes_compra")
          ["Risco_Intermitencia", "Meses_Comprados_Historico"]).erase
            "mes_compra"
        rows := (df.rows.map mesRow).map
          (intermEnrich (df.rows.map mesRow)) } := by
  rw [calcular_risco_intermitencia, if_pos h, if_neg]
  rw [janela_transport]
  exact hne

theorem interm_empty (df : DF) (h : "data_compra" ∈ df.cols)
    (hempty : janelaMeses df.rows = []) :
    calcular_risco_intermitencia df =
      { cols := insertCol df.cols "mes_compra"
        rows := df.rows.map mesRow } := by
  rw [calcular_risco_intermitencia, if_pos h, if_pos]
  rw [janela_transport]
  exact hempty

/-- C7 (amended): when `data_compra` is present and at least one valid
month bucket exists, every row receives
`Risco_Intermitencia = 1 - months_active / total_window_months` with
`total_window_months = (year_max - year_min) * 12 + (month_max -
month_min) + 1` over the whole table, the result lies in `[0, 1]`, and a
product active in every month of the window gets exactly `0`; when no
valid month bucket exists the rows and the pre-existing columns are
returned unchanged, but with the residual all-null `mes_compra` column
added (the code mutates the frame before the early return). -/
theorem C7_intermitencia (df : DF) (h : "data_compra" ∈ df.cols) :
    (janelaMeses df.rows ≠ [] →
      ∀ P, P = periodoTotalMeses (listMin (janelaMeses df.rows))
          (listMax (janelaMeses df.rows)) →
        (calcular_risco_intermitencia df).rows.length = df.rows.length ∧
        0 < P ∧
        (∀ i, i < df.rows.length →
          (((calcular_risco_intermitencia df).rows.getD i
              row0).riscoIntermitencia =
            1 - ((mesesAtivosFato df.rows
              ((df.rows.getD i row0).id_produto) : ℚ) / (P : ℚ))) ∧
          (((calcular_risco_intermitencia df).rows.getD i
              row0).mesesCompradosHistorico =
            mesesAtivosFato df.rows ((df.rows.getD i row0).id_produto)) ∧
          (0 ≤ ((calcular_risco_intermitencia df).rows.getD i
              row0).riscoIntermitencia ∧
            ((calcular_risco_intermitencia df).rows.getD i
              row0).riscoIntermitencia ≤ 1) ∧
          (((mesesAtivosFato df.rows
              ((df.rows.getD i row0).id_produto)) : ℤ) = P →
            ((calcular_risco_intermitencia df).rows.getD i
              row0).riscoIntermitencia = 0))) ∧
    (janelaMeses df.rows = [] →
      (calcular_risco_intermitencia df).cols =
        insertCol df.cols "mes_compra" ∧
      (calcular_risco_intermitencia df).rows = df.rows.map mesRow) := by
  constructor
  · intro hne P hP
    subst hP
    have hrows : (calcular_risco_intermitencia df).rows =
        df.rows.map (fun r =>
          intermEnrich (df.rows.map mesRow) (mesRow r)) := by
      rw [interm_happy df h hne]
      rw [List.map_map]
      rfl
    have hpos := periodo_pos df.rows hne
    refine ⟨by rw [hrows]; simp, hpos, ?_⟩
    intro i hi
    have hout : (calcular_risco_intermitencia df).rows.getD i row0 =
        intermEnrich (df.rows.map mesRow)
          (mesRow (df.rows.getD i row0)) := by
      rw [hrows]
      exact getD_map _ _ i row0 row0 hi
    have hval : (intermEnrich (df.rows.map mesRow)
        (mesRow (df.rows.getD i row0))).riscoIntermitencia =
        1 - ((mesesAtivosFato df.rows
          ((df.rows.getD i row0).id_produto) : ℚ) /
          ((periodoTotalMeses (listMin (janelaMeses df.rows))
            (listMax (janelaMeses df.rows))) : ℚ)) := by
      rw [intermEnrich]
      simp only [janela_transport, mesesAtivos_transport]
      rw [if_pos hpos]
      rfl
    have hcnt : (intermEnrich (df.rows.map mesRow)
        (mesRow (df.rows.getD i row0))).mesesCompradosHistorico =
        mesesAtivosFato df.rows ((df.rows.getD i row0).id_produto) := by
      rw [intermEnrich]
      simp only [mesesAtivos_transport]
      rfl
    have hle := mesesAtivosFato_le df.rows
      ((df.rows.getD i row0).id_produto) hne
    have hPq : (0 : ℚ) < ((periodoTotalMeses (listMin (janelaMeses df.rows))
        (listMax (janelaMeses df.rows))) : ℚ) := by
      exact_mod_cast hpos
    have hleq : ((mesesAtivosFato df.rows
        ((df.rows.getD i row0).id_produto) : ℚ)) ≤
        ((periodoTotalMeses (listMin (janelaMeses df.rows))
          (listMax (janelaMeses df.rows))) : ℚ) := by
      exact_mod_cast hle
    have hfrac0 : (0 : ℚ) ≤ (mesesAtivosFato df.rows
        ((df.rows.getD i row0).id_produto) : ℚ) /
        ((periodoTotalMeses (listMin (janelaMeses df.rows))
          (listMax (janelaMeses df.rows))) : ℚ) := by
      apply div_nonneg _ (le_of_lt hPq)
      positivity
    have hfrac1 : (mesesAtivosFato df.rows
        ((df.rows.getD i row0).id_produto) : ℚ) /
        ((periodoTotalMeses (listMin (janelaMeses df.rows))
          (listMax (janelaMeses df.rows))) : ℚ) ≤ 1 :=
      (div_le_one hPq).mpr hleq
    refine ⟨by rw [hout, hval], by rw [hout, hcnt], ?_, ?_⟩
    · rw [hout, hval]
      constructor
      · linarith
      · linarith
    · intro hfull
      rw [hout, hval]
      have hq : ((mesesAtivosFato df.rows
          ((df.rows.getD i row0).id_produto)) : ℚ) =
          ((periodoTotalMeses (listMin (janelaMeses df.rows))
            (listMax (janelaMeses df.rows))) : ℚ) := by
        exact_mod_cast hfull
      rw [hq, div_self (ne_of_gt hPq)]
      ring
  · intro hempty
    rw [interm_empty df h hempty]
    exact ⟨rfl, rfl⟩

/-- Concrete table for the C7 witness: product P1 active in two of the
two window months, product P2 active in one. -/
noncomputable def dfI : DF :=
  { cols := ["data_compra", "id_produto"]
    rows :=
      [{ data_compra := some ⟨2024, 1, 5⟩, id_produto := "P1" },
       { data_compra := some ⟨2024, 2, 5⟩, id_produto := "P1" },
       { data_compra := some ⟨2024, 1, 20⟩, id_produto := "P2" }] }

/-- Witness for C7 at the concrete table `dfI`. -/
theorem C7_intermitencia_witness :
    "data_compra" ∈ dfI.cols ∧
    ((janelaMeses dfI.rows ≠ [] →
      ∀ P, P = periodoTotalMeses (listMin (janelaMeses dfI.rows))
          (listMax (janelaMeses dfI.rows)) →
        (calcular_risco_intermitencia dfI).rows.length =
          dfI.rows.length ∧
        0 < P ∧
        (∀ i, i < dfI.rows.length →
          (((calcular_risco_intermitencia dfI).rows.getD i
              row0).riscoIntermitencia =
            1 - ((mesesAtivosFato dfI.rows
              ((dfI.rows.getD i row0).id_produto) : ℚ) / (P : ℚ))) ∧
          (((calcular_risco_intermitencia dfI).rows.getD i
              row0).mesesCompradosHistorico =
            mesesAtivosFato dfI.rows
              ((dfI.rows.getD i row0).id_produto)) ∧
          (0 ≤ ((calcular_risco_intermitencia dfI).rows.getD i
              row0).riscoIntermitencia ∧
            ((calcular_risco_intermitencia dfI).rows.getD i
              row0).riscoIntermitencia ≤ 1) ∧
          (((mesesAtivosFato dfI.rows
              ((dfI.rows.getD i row0).id_produto)) : ℤ) = P →
            ((calcular_risco_intermitencia dfI).rows.getD i
              row0).riscoIntermitencia = 0))) ∧
    (janelaMeses dfI.rows = [] →
      (calcular_risco_intermitencia dfI).cols =
        insertCol dfI.cols "mes_compra" ∧
      (calcular_risco_intermitencia dfI).rows = dfI.rows.map mesRow)) :=
  ⟨by decide, C7_intermitencia dfI (by decide)⟩

/-- Concrete table with a `data_compra` column but no valid date. -/
noncomputable def dfISemData : DF :=
  { cols := ["data_compra", "id_produto"], rows := [{}] }

/-- Counterexample to C7 as stated: on a table whose only date is null,
the stage does not return the table unchanged — it adds the residual
`mes_compra` column before the early return. -/
theorem C7_intermitencia_counterexample :
    janelaMeses dfISemData.rows = [] ∧
    (calcular_risco_intermitencia dfISemData).cols ≠ dfISemData.cols ∧
    (calcular_risco_intermitencia dfISemData).cols =
      ["data_compra", "id_produto", "mes_compra"] := by
  refine ⟨by decide, by decide, by decide⟩

/-! ## Function 3: supplier-concentration risk
(src/modelagem_dim.py lines 130-172) -/

/-- Total spend of a product:
`df.groupby('id_produto')['preco_total'].sum()` (line 140). -/
def gastoTotalProduto (rows : List Row) (p : String) : ℚ :=
  ((rows.filter (fun s => decide (s.id_produto = p))).map
    (fun s => s.preco_total)).sum

/-- Spend of one (product, supplier) pair:
`df.groupby(['id_produto', 'id_fornecedor'])[...].sum()` (line 144). -/
def gastoPorFornecedor (rows : List Row) (p f : String) : ℚ :=
  ((rows.filter (fun s =>
    decide (s.id_produto = p ∧ s.id_fornecedor = f))).map
    (fun s => s.preco_total)).sum

/-- Distinct suppliers of a product. -/
def fornecedoresDe (rows : List Row) (p : String) : List String :=
  dedupFirst ((rows.filter (fun s => decide (s.id_produto = p))).map
    (fun s => s.id_fornecedor))

/-- Spend of the highest-spend supplier of the product: the value selected
by `idxmax` at lines 147-151 (`idxmax` picks the first row attaining the
group maximum, whose spend IS the maximum). -/
def gastoFornPrincipal (rows : List Row) (p : String) : ℚ :=
  listMax ((fornecedoresDe rows p).map (gastoPorFornecedor rows p))

/-- Concentration ratio of lines 157-161:
`np.where(total > 0, principal / total, 0)`. -/
def concentracaoDe (rows : List Row) (p : String) : ℚ :=
  if 0 < gastoTotalProduto rows p
  then gastoFornPrincipal rows p / gastoTotalProduto rows p
  else 0

/-- Embedding of `calcular_concentracao_fornecedor` (src/modelagem_dim.py
lines 130-172).  Unlike every other enrichment stage this function has NO
column-presence guard: the column accesses at lines 140-144 raise a
`KeyError` when `id_produto`, `preco_total` or `id_fornecedor` is absent,
embedded as the `Except.error` branch (no caller catches it: main.py
line 153 calls the stage bare).  On success the ratio is merged back per
product with a left join that always matches. -/
def calcular_concentracao_fornecedor (df : DF) : Except String DF :=
  if "id_produto" ∈ df.cols ∧ "preco_total" ∈ df.cols ∧
      "id_fornecedor" ∈ df.cols then
    Except.ok
      { cols := insertCol df.cols "%_Gasto_Unico_Forn"
        rows := df.rows.map (fun r =>
          { r with
            pctGastoUnicoForn := concentracaoDe df.rows r.id_produto }) }
  else Except.error "KeyError"

theorem sum_map_filter_le {α : Type} (val : α → ℚ) (q : α → Bool)
    (l : List α) (h : ∀ x ∈ l, 0 ≤ val x) :
    ((l.filter q).map val).sum ≤ (l.map val).sum := by
  induction l with
  | nil => simp
  | cons x xs ih =>
    have hx := h x (List.mem_cons_self x xs)
    have hxs := ih (fun y hy => h y (List.mem_cons_of_mem x hy))
    rw [List.filter_cons]
    by_cases hq : q x
    · rw [if_pos hq, List.map_cons, List.map_cons, List.sum_cons,
        List.sum_cons]
      linarith
    · rw [if_neg hq, List.map_cons, List.sum_cons]
      linarith

theorem getD_mem {α : Type} {l : List α} {i : ℕ} {d : α}
    (hi : i < l.length) : l.getD i d ∈ l := by
  rw [List.getD_eq_getElem _ _ hi]
  exact List.getElem_mem _

theorem fornecedoresDe_ne_nil {rows : List Row} {r : Row}
    (hr : r ∈ rows) : fornecedoresDe rows r.id_produto ≠ [] := by
  have hmem : r.id_fornecedor ∈ fornecedoresDe rows r.id_produto := by
    rw [fornecedoresDe, mem_dedupFirst]
    refine List.mem_map.mpr ⟨r, ?_, rfl⟩
    refine List.mem_filter.mpr ⟨hr, by simp⟩
  intro hnil
  rw [hnil] at hmem
  cases hmem

theorem gastoPorFornecedor_nonneg (rows : List Row) (p f : String)
    (h : ∀ s ∈ rows, 0 ≤ s.preco_total) :
    0 ≤ gastoPorFornecedor rows p f := by
  rw [gastoPorFornecedor]
  refine List.sum_nonneg ?_
  intro x hx
  rcases List.mem_map.mp hx with ⟨s, hs, rfl⟩
  exact h s (List.mem_of_mem_filter hs)

theorem gastoPorFornecedor_le_total (rows : List Row) (p f : String)
    (h : ∀ s ∈ rows, 0 ≤ s.preco_total) :
    gastoPorFornecedor rows p f ≤ gastoTotalProduto rows p := by
  rw [gastoPorFornecedor, gastoTotalProduto]
  have hsplit : rows.filter (fun s =>
      decide (s.id_produto = p ∧ s.id_fornecedor = f)) =
      (rows.filter (fun s => decide (s.id_produto = p))).filter
        (fun s => decide (s.id_fornecedor = f)) := by
    rw [List.filter_filter]
    refine List.filter_congr ?_
    intro s _
    by_cases h1 : s.id_produto = p <;> by_cases h2 : s.id_fornecedor = f <;>
      simp [h1, h2]
  rw [hsplit]
  exact sum_map_filter_le (fun s => s.preco_total) _ _
    (fun s hs => h s (List.mem_of_mem_filter hs))

/-- C5 (amended): with the three accessed columns present, every row gets
the ratio `top supplier spend / total product spend` when the total is
strictly positive and `0` otherwise; when every `preco_total` of the table
is nonnegative the ratio lies in `[0, 1]`; and a product sourced from a
single supplier whose total spend is strictly positive gets exactly `1`. -/
theorem C5_concentracao (df : DF)
    (h : "id_produto" ∈ df.cols ∧ "preco_total" ∈ df.cols ∧
      "id_fornecedor" ∈ df.cols) :
    ∀ out, calcular_concentracao_fornecedor df = Except.ok out →
      out.cols = insertCol df.cols "%_Gasto_Unico_Forn" ∧
      out.rows.length = df.rows.length ∧
      ∀ i, i < df.rows.length →
        ((out.rows.getD i row0).pctGastoUnicoForn =
          (if 0 < gastoTotalProduto df.rows
              ((df.rows.getD i row0).id_produto)
           then gastoFornPrincipal df.rows
              ((df.rows.getD i row0).id_produto) /
             gastoTotalProduto df.rows ((df.rows.getD i row0).id_produto)
           else 0)) ∧
        ((∀ s ∈ df.rows, 0 ≤ s.preco_total) →
          0 ≤ (out.rows.getD i row0).pctGastoUnicoForn ∧
          (out.rows.getD i row0).pctGastoUnicoForn ≤ 1) ∧
        (∀ f, fornecedoresDe df.rows ((df.rows.getD i row0).id_produto)
            = [f] →
          0 < gastoTotalProduto df.rows
            ((df.rows.getD i row0).id_produto) →
          (out.rows.getD i row0).pctGastoUnicoForn = 1) := by
  intro out hout
  rw [calcular_concentracao_fornecedor, if_pos h] at hout
  have hdef := (Except.ok.injEq _ _).mp hout
  subst hdef
  refine ⟨rfl, by simp, ?_⟩
  intro i hi
  have hrowi : (df.rows.map (fun r =>
      { r with
        pctGastoUnicoForn := concentracaoDe df.rows r.id_produto })).getD
        i row0 =
      { df.rows.getD i row0 with
        pctGastoUnicoForn := concentracaoDe df.rows
          ((df.rows.getD i row0).id_produto) } :=
    getD_map _ _ i row0 row0 hi
  have hmem : df.rows.getD i row0 ∈ df.rows := getD_mem hi
  have hval : ({ df.rows.getD i row0 with
      pctGastoUnicoForn := concentracaoDe df.rows
        ((df.rows.getD i row0).id_produto) } : Row).pctGastoUnicoForn =
      concentracaoDe df.rows ((df.rows.getD i row0).id_produto) := rfl
  refine ⟨?_, ?_, ?_⟩
  · show ((df.rows.map (fun r =>
        { r with
          pctGastoUnicoForn := concentracaoDe df.rows
            r.id_produto })).getD i row0).pctGastoUnicoForn = _
    rw [hrowi, hval, concentracaoDe]
  · intro hnn
    show 0 ≤ ((df.rows.map (fun r =>
        { r with
          pctGastoUnicoForn := concentracaoDe df.rows
            r.id_produto })).getD i row0).pctGastoUnicoForn ∧
      ((df.rows.map (fun r =>
        { r with
          pctGastoUnicoForn := concentracaoDe df.rows
            r.id_produto })).getD i row0).pctGastoUnicoForn ≤ 1
    rw [hrowi, hval, concentracaoDe]
    by_cases hpos : 0 < gastoTotalProduto df.rows
        ((df.rows.getD i row0).id_produto)
    · rw [if_pos hpos]
      have hne := fornecedoresDe_ne_nil hmem
      have htop0 : 0 ≤ gastoFornPrincipal df.rows
          ((df.rows.getD i row0).id_produto) := by
        rw [gastoFornPrincipal]
        rcases listMax_mem (l := (fornecedoresDe df.rows
            ((df.rows.getD i row0).id_produto)).map
            (gastoPorFornecedor df.rows
              ((df.rows.getD i row0).id_produto)))
            (by simpa using hne) with hm
        rcases List.mem_map.mp hm with ⟨f, _, hfeq⟩
        rw [← hfeq]
        exact gastoPorFornecedor_nonneg df.rows _ f hnn
      have htople : gastoFornPrincipal df.rows
          ((df.rows.getD i row0).id_produto) ≤
          gastoTotalProduto df.rows ((df.rows.getD i row0).id_produto) := by
        rw [gastoFornPrincipal]
        refine listMax_le (by simpa using hne) ?_
        intro x hx
        rcases List.mem_map.mp hx with ⟨f, _, rfl⟩
        exact gastoPorFornecedor_le_total df.rows _ f hnn
      exact ⟨div_nonneg htop0 (le_of_lt hpos),
        (div_le_one hpos).mpr htople⟩
    · rw [if_neg hpos]
      exact ⟨le_refl 0, by norm_num⟩
  · intro f hf hpos
    show ((df.rows.map (fun r =>
        { r with
          pctGastoUnicoForn := concentracaoDe df.rows
            r.id_produto })).getD i row0).pctGastoUnicoForn = 1
    rw [hrowi, hval, concentracaoDe, if_pos hpos]
    have hall : ∀ s ∈ df.rows.filter (fun s =>
        decide (s.id_produto = (df.rows.getD i row0).id_produto)),
        s.id_fornecedor = f := by
      intro s hs
      have : s.id_fornecedor ∈ fornecedoresDe df.rows
          ((df.rows.getD i row0).id_produto) := by
        rw [fornecedoresDe, mem_dedupFirst]
        exact List.mem_map.mpr ⟨s, hs, rfl⟩
      rw [hf] at this
      simpa using this
    have hgasto : gastoPorFornecedor df.rows
        ((df.rows.getD i row0).id_produto) f =
        gastoTotalProduto df.rows ((df.rows.getD i row0).id_produto) := by
      rw [gastoPorFornecedor, gastoTotalProduto]
      congr 1
      apply congrArg
      have hsplit : df.rows.filter (fun s =>
          decide (s.id_produto = (df.rows.getD i row0).id_produto ∧
            s.id_fornecedor = f)) =
          (df.rows.filter (fun s =>
            decide (s.id_produto =
              (df.rows.getD i row0).id_produto))).filter
            (fun s => decide (s.id_fornecedor = f)) := by
        rw [List.filter_filter]
        refine List.filter_congr ?_
        intro s _
        by_cases h1 : s.id_produto = (df.rows.getD i row0).id_produto <;>
          by_cases h2 : s.id_fornecedor = f <;> simp [h1, h2]
      rw [hsplit]
      refine List.filter_eq_self.mpr ?_
      intro s hs
      simp only [decide_eq_true_eq]
      exact hall s hs
    have hprin : gastoFornPrincipal df.rows
        ((df.rows.getD i row0).id_produto) =
        gastoTotalProduto df.rows ((df.rows.getD i row0).id_produto) := by
      rw [gastoFornPrincipal, hf, List.map_cons, List.map_nil, hgasto]
      rfl
    rw [hprin, div_self (ne_of_gt hpos)]

/-- Concrete table for the C5 witness: product P split 700 / 300 between
suppliers A and B (the spec scenario), product Q single-sourced from C. -/
noncomputable def dfF : DF :=
  { cols := ["id_produto", "preco_total", "id_fornecedor"]
    rows :=
      [{ id_produto := "P", id_fornecedor := "A", preco_total := 700 },
       { id_produto := "P", id_fornecedor := "B", preco_total := 300 },
       { id_produto := "Q", id_fornecedor := "C", preco_total := 50 }] }

/-- Witness for C5 at the concrete table `dfF`. -/
theorem C5_concentracao_witness :
    ("id_produto" ∈ dfF.cols ∧ "preco_total" ∈ dfF.cols ∧
      "id_fornecedor" ∈ dfF.cols) ∧
    (∀ out, calcular_concentracao_fornecedor dfF = Except.ok out →
      out.cols = insertCol dfF.cols "%_Gasto_Unico_Forn" ∧
      out.rows.length = dfF.rows.length ∧
      ∀ i, i < dfF.rows.length →
        ((out.rows.getD i row0).pctGastoUnicoForn =
          (if 0 < gastoTotalProduto dfF.rows
              ((dfF.rows.getD i row0).id_produto)
           then gastoFornPrincipal dfF.rows
              ((dfF.rows.getD i row0).id_produto) /
             gastoTotalProduto dfF.rows
               ((dfF.rows.getD i row0).id_produto)
           else 0)) ∧
        ((∀ s ∈ dfF.rows, 0 ≤ s.preco_total) →
          0 ≤ (out.rows.getD i row0).pctGastoUnicoForn ∧
          (out.rows.getD i row0).pctGastoUnicoForn ≤ 1) ∧
        (∀ f, fornecedoresDe dfF.rows ((dfF.rows.getD i row0).id_produto)
            = [f] →
          0 < gastoTotalProduto dfF.rows
            ((dfF.rows.getD i row0).id_produto) →
          (out.rows.getD i row0).pctGastoUnicoForn = 1)) :=
  ⟨by decide, C5_concentracao dfF (by decide)⟩

/-- Concrete table refuting the unconditional form of C5: product P has a
negative line (a coerced negative total), product Q is single-sourced with
zero total spend. -/
noncomputable def dfCneg : DF :=
  { cols := ["id_produto", "preco_total", "id_fornecedor"]
    rows :=
      [{ id_produto := "P", id_fornecedor := "A", preco_total := 700 },
       { id_produto := "P", id_fornecedor := "B", preco_total := -300 },
       { id_produto := "Q", id_fornecedor := "C", preco_total := 0 }] }

/-- Counterexample to C5 as stated: with a negative `preco_total` the
ratio is `7/4`, outside `[0, 1]`; and the single-supplier product Q (its
total spend being zero) gets `0`, not `1`. -/
theorem C5_concentracao_counterexample :
    ((calcular_concentracao_fornecedor dfCneg).toOption.map
      (fun d => d.rows.map (fun r => r.pctGastoUnicoForn))) =
      some [7/4, 7/4, 0] ∧
    ¬ ((7 : ℚ) / 4 ≤ 1) ∧
    fornecedoresDe dfCneg.rows "Q" = ["C"] ∧
    (0 : ℚ) ≠ 1 := by
  refine ⟨?_, by norm_num, by decide, by norm_num⟩
  simp [calcular_concentracao_fornecedor, dfCneg, concentracaoDe,
    gastoTotalProduto, gastoPorFornecedor, fornecedoresDe,
    gastoFornPrincipal, dedupFirst, dedupFirstAux, listMax, insertCol,
    Except.toOption, List.filter_cons]
  norm_num

/-! ## Function 4: prioritisation index
(src/modelagem_dim.py lines 179-238) -/

/-- Required columns of the prioritisation stage (line 187). -/
def priorCols : List String := ["id_produto", "preco_total", "score_z_risco"]

/-- Distinct products of the table: the group keys of
`df.groupby('id_produto')` (line 192). -/
def produtosDe (rows : List Row) : List String :=
  dedupFirst (rows.map (fun s => s.id_produto))

/-- Mean absolute z-score of a product, `risco_medio` (line 194). -/
noncomputable def riscoMedio (rows : List Row) (p : String) : ℝ :=
  meanL ((rows.filter (fun s => decide (s.id_produto = p))).map
    (fun s => |s.score_z_risco|))

/-- Summed total price of a product, `demanda_valor` (line 196). -/
def demandaValor (rows : List Row) (p : String) : ℚ :=
  ((rows.filter (fun s => decide (s.id_produto = p))).map
    (fun s => s.preco_total)).sum

/-- Min-max normalised risk over all products (lines 203-209): guarded by
`(max - min) > 0`, `0` otherwise. -/
noncomputable def riscoNormalizado (rows : List Row) (p : String) : ℝ :=
  if 0 < listMax ((produtosDe rows).map (riscoMedio rows)) -
      listMin ((produtosDe rows).map (riscoMedio rows))
  then (riscoMedio rows p -
      listMin ((produtosDe rows).map (riscoMedio rows))) /
    (listMax ((produtosDe rows).map (riscoMedio rows)) -
      listMin ((produtosDe rows).map (riscoMedio rows)))
  else 0

/-- Min-max normalised demand over all products (lines 212-218). -/
def demandaNormalizada (rows : List Row) (p : String) : ℚ :=
  if 0 < listMax ((produtosDe rows).map (demandaValor rows)) -
      listMin ((produtosDe rows).map (demandaValor rows))
  then (demandaValor rows p -
      listMin ((produtosDe rows).map (demandaValor rows))) /
    (listMax ((produtosDe rows).map (demandaValor rows)) -
      listMin ((produtosDe rows).map (demandaValor rows)))
  else 0

/-- Final 50/50 index rounded to four decimals (lines 221-224). -/
noncomputable def indicePrior (rows : List Row) (p : String) : ℝ :=
  round4 (riscoNormalizado rows p * 0.5 +
    ((demandaNormalizada rows p : ℚ) : ℝ) * 0.5)

/-- Embedding of `calcular_indice_priorizacao` (src/modelagem_dim.py
lines 179-238).  Missing required columns: no-op (lines 187-189).  The
left join of line 231 merges the per-product aggregate back onto every
row; a row whose product is missing from the aggregate would receive null
values, which the `fillna(0)` of lines 234-235 turns into `0` — embedded
as the membership fallback (it never fires, because the aggregate is
grouped from the same frame). -/
noncomputable def calcular_indice_priorizacao (df : DF) : DF :=
  if hasCols df priorCols then
    { cols := insertCols df.cols ["indice_priorizacao", "demanda_valor"]
      rows := df.rows.map (fun r =>
        if r.id_produto ∈ produtosDe df.rows then
          { r with
            indice_priorizacao := indicePrior df.rows r.id_produto
            demanda_valor := demandaValor df.rows r.id_produto }
        else
          { r with
            indice_priorizacao := ((0 : ℚ) : ℝ)
            demanda_valor := 0 }) }
  else df

theorem minmax_norm_mem_unit {α : Type} [LinearOrderedField α]
    {l : List α} {x : α} (hx : x ∈ l) :
    0 ≤ (if 0 < listMax l - listMin l
      then (x - listMin l) / (listMax l - listMin l) else 0) ∧
    (if 0 < listMax l - listMin l
      then (x - listMin l) / (listMax l - listMin l) else 0) ≤ 1 := by
  by_cases h : 0 < listMax l - listMin l
  · rw [if_pos h]
    have h1 : listMin l ≤ x := listMin_le_mem hx
    have h2 : x ≤ listMax l := mem_le_listMax hx
    constructor
    · exact div_nonneg (by linarith) (le_of_lt h)
    · rw [div_le_one h]
      linarith
  · rw [if_neg h]
    norm_num

/-- C6: both normalised sub-components lie in `[0, 1]` (with the value
fixed at `0` whenever max equals min), the final index of every row equals
`0.5 * risco_normalizado + 0.5 * demanda_normalizada` rounded to four
decimals and lies in `[0, 1]`, every row's product is found by the
merge-back (so the `fillna(0)` default of the merge applies only to the
impossible unmatched case), and `demanda_valor` is the product's summed
total price. -/
theorem C6_priorizacao (df : DF) (h : hasCols df priorCols = true) :
    (calcular_indice_priorizacao df).cols =
      insertCols df.cols ["indice_priorizacao", "demanda_valor"] ∧
    (calcular_indice_priorizacao df).rows.length = df.rows.length ∧
    ∀ i, i < df.rows.length →
      ((df.rows.getD i row0).id_produto ∈ produtosDe df.rows) ∧
      (((calcular_indice_priorizacao df).rows.getD i
          row0).indice_priorizacao =
        round4 (riscoNormalizado df.rows
            ((df.rows.getD i row0).id_produto) * 0.5 +
          ((demandaNormalizada df.rows
            ((df.rows.getD i row0).id_produto) : ℚ) : ℝ) * 0.5)) ∧
      (((calcular_indice_priorizacao df).rows.getD i row0).demanda_valor =
        demandaValor df.rows ((df.rows.getD i row0).id_produto)) ∧
      (0 ≤ riscoNormalizado df.rows ((df.rows.getD i row0).id_produto) ∧
        riscoNormalizado df.rows ((df.rows.getD i row0).id_produto) ≤ 1) ∧
      (0 ≤ demandaNormalizada df.rows
          ((df.rows.getD i row0).id_produto) ∧
        demandaNormalizada df.rows ((df.rows.getD i row0).id_produto)
          ≤ 1) ∧
      (0 ≤ ((calcular_indice_priorizacao df).rows.getD i
          row0).indice_priorizacao ∧
        ((calcular_indice_priorizacao df).rows.getD i
          row0).indice_priorizacao ≤ 1) := by
  have hshape : calcular_indice_priorizacao df =
      { cols := insertCols df.cols ["indice_priorizacao", "demanda_valor"]
        rows := df.rows.map (fun r =>
          if r.id_produto ∈ produtosDe df.rows then
            { r with
              indice_priorizacao := indicePrior df.rows r.id_produto
              demanda_valor := demandaValor df.rows r.id_produto }
          else
            { r with
              indice_priorizacao := ((0 : ℚ) : ℝ)
              demanda_valor := 0 }) } := by
    rw [calcular_indice_priorizacao, if_pos h]
  refine ⟨by rw [hshape], by rw [hshape]; simp, ?_⟩
  intro i hi
  have hmem : df.rows.getD i row0 ∈ df.rows := getD_mem hi
  have hp : (df.rows.getD i row0).id_produto ∈ produtosDe df.rows := by
    rw [produtosDe, mem_dedupFirst]
    exact List.mem_map.mpr ⟨df.rows.getD i row0, hmem, rfl⟩
  have hrowi : (calcular_indice_priorizacao df).rows.getD i row0 =
      { df.rows.getD i row0 with
        indice_priorizacao := indicePrior df.rows
          ((df.rows.getD i row0).id_produto)
        demanda_valor := demandaValor df.rows
          ((df.rows.getD i row0).id_produto) } := by
    rw [hshape]
    show (df.rows.map (fun r =>
      if r.id_produto ∈ produtosDe df.rows then
        { r with
          indice_priorizacao := indicePrior df.rows r.id_produto
          demanda_valor := demandaValor df.rows r.id_produto }
      else
        { r with
          indice_priorizacao := ((0 : ℚ) : ℝ)
          demanda_valor := 0 })).getD i row0 = _
    rw [getD_map _ _ i row0 row0 hi, if_pos hp]
  have hrmem : riscoMedio df.rows ((df.rows.getD i row0).id_produto) ∈
      (produtosDe df.rows).map (riscoMedio df.rows) :=
    List.mem_map.mpr ⟨_, hp, rfl⟩
  have hdmem : demandaValor df.rows ((df.rows.getD i row0).id_produto) ∈
      (produtosDe df.rows).map (demandaValor df.rows) :=
    List.mem_map.mpr ⟨_, hp, rfl⟩
  have hrb := minmax_norm_mem_unit hrmem
  have hdb := minmax_norm_mem_unit hdmem
  have hrb2 : 0 ≤ riscoNormalizado df.rows
      ((df.rows.getD i row0).id_produto) ∧
      riscoNormalizado df.rows ((df.rows.getD i row0).id_produto) ≤ 1 := by
    rw [riscoNormalizado]
    exact hrb
  have hdb2 : 0 ≤ demandaNormalizada df.rows
      ((df.rows.getD i row0).id_produto) ∧
      demandaNormalizada df.rows ((df.rows.getD i row0).id_produto)
        ≤ 1 := by
    rw [demandaNormalizada]
    exact hdb
  have hsum0 : 0 ≤ riscoNormalizado df.rows
      ((df.rows.getD i row0).id_produto) * 0.5 +
      ((demandaNormalizada df.rows
        ((df.rows.getD i row0).id_produto) : ℚ) : ℝ) * 0.5 := by
    have hd0 : (0 : ℝ) ≤ ((demandaNormalizada df.rows
        ((df.rows.getD i row0).id_produto) : ℚ) : ℝ) := by
      exact_mod_cast hdb2.1
    nlinarith [hrb2.1]
  have hsum1 : riscoNormalizado df.rows
      ((df.rows.getD i row0).id_produto) * 0.5 +
      ((demandaNormalizada df.rows
        ((df.rows.getD i row0).id_produto) : ℚ) : ℝ) * 0.5 ≤ 1 := by
    have hd1 : ((demandaNormalizada df.rows
        ((df.rows.getD i row0).id_produto) : ℚ) : ℝ) ≤ 1 := by
      exact_mod_cast hdb2.2
    nlinarith [hrb2.2]
  have hidx := round4_mem_unit hsum0 hsum1
  refine ⟨hp, ?_, ?_, hrb2, hdb2, ?_⟩
  · rw [hrowi]
    rfl
  · rw [hrowi]
  · rw [hrowi]
    show 0 ≤ indicePrior df.rows ((df.rows.getD i row0).id_produto) ∧
      indicePrior df.rows ((df.rows.getD i row0).id_produto) ≤ 1
    rw [indicePrior]
    exact hidx

/-- Concrete table for the C6 witness: two products with distinct spends
and z-scores. -/
noncomputable def dfP : DF :=
  { cols := ["id_produto", "preco_total", "score_z_risco"]
    rows :=
      [{ id_produto := "P1", preco_total := 100,
         score_z_risco := ((1 : ℚ) : ℝ) },
       { id_produto := "P1", preco_total := 300,
         score_z_risco := ((-1 : ℚ) : ℝ) },
       { id_produto := "P2", preco_total := 50,
         score_z_risco := ((0 : ℚ) : ℝ) }] }

/-- Witness for C6 at the concrete table `dfP`. -/
theorem C6_priorizacao_witness :
    hasCols dfP priorCols = true ∧
    ((calcular_indice_priorizacao dfP).cols =
      insertCols dfP.cols ["indice_priorizacao", "demanda_valor"] ∧
    (calcular_indice_priorizacao dfP).rows.length = dfP.rows.length ∧
    ∀ i, i < dfP.rows.length →
      ((dfP.rows.getD i row0).id_produto ∈ produtosDe dfP.rows) ∧
      (((calcular_indice_priorizacao dfP).rows.getD i
          row0).indice_priorizacao =
        round4 (riscoNormalizado dfP.rows
            ((dfP.rows.getD i row0).id_produto) * 0.5 +
          ((demandaNormalizada dfP.rows
            ((dfP.rows.getD i row0).id_produto) : ℚ) : ℝ) * 0.5)) ∧
      (((calcular_indice_priorizacao dfP).rows.getD i
          row0).demanda_valor =
        demandaValor dfP.rows ((dfP.rows.getD i row0).id_produto)) ∧
      (0 ≤ riscoNormalizado dfP.rows ((dfP.rows.getD i row0).id_produto) ∧
        riscoNormalizado dfP.rows ((dfP.rows.getD i row0).id_produto)
          ≤ 1) ∧
      (0 ≤ demandaNormalizada dfP.rows
          ((dfP.rows.getD i row0).id_produto) ∧
        demandaNormalizada dfP.rows ((dfP.rows.getD i row0).id_produto)
          ≤ 1) ∧
      (0 ≤ ((calcular_indice_priorizacao dfP).rows.getD i
          row0).indice_priorizacao ∧
        ((calcular_indice_priorizacao dfP).rows.getD i
          row0).indice_priorizacao ≤ 1)) :=
  ⟨by decide, C6_priorizacao dfP (by decide)⟩

/-! ## Function 6: opportunity radar (src/modelagem_dim.py lines 314-387) -/

/-- Required columns of the radar (lines 322-323). -/
def radarCols : List String :=
  ["id_produto", "id_instituicao", "id_tempo", "id_pedido",
   "id_fornecedor", "id_fabricante", "preco_unitario", "preco_total",
   "qtd_itens_comprados"]

/-- Median of a numeric series: the embedding of pandas `median` on a
nonempty group (mean of the two central order statistics of the sorted
series). -/
def medianQ (l : List ℚ) : ℚ :=
  if l.length % 2 = 1 then
    (insSort (fun a b => decide (a < b)) l).getD (l.length / 2) 0
  else
    ((insSort (fun a b => decide (a < b)) l).getD (l.length / 2 - 1) 0 +
      (insSort (fun a b => decide (a < b)) l).getD (l.length / 2) 0) / 2

/-- One output row of the radar, with the presentation names of lines
367-383 transliterated to Lean identifiers. -/
structure RadarRow where
  id_pedido : String
  id_produto : String
  id_instituicao : String
  id_fabricante : String
  id_fornecedor : String
  id_tempo : Option ℕ
  pmpPagoLinha : ℚ
  pmpBenchmarkReferencia : Option ℚ
  desvioPctOportunidade : ℚ
  economiaPorLinha : Option ℚ
deriving DecidableEq, Repr

/-- The positivity filter of lines 329-332: strictly positive total price
and quantity. -/
def radarFiltro (rows : List Row) : List Row :=
  rows.filter (fun s =>
    decide (0 < s.preco_total ∧ 0 < s.qtd_itens_comprados))

/-- Median benchmark of one (product, institution, time) context over the
filtered table (lines 341-343). -/
def benchmarkDe (limpo : List Row) (p inst : String) (t : ℕ) : ℚ :=
  medianQ ((limpo.filter (fun s =>
    decide (s.id_produto = p ∧ s.id_instituicao = inst ∧
      s.id_tempo = some t))).map (fun s => s.preco_unitario))

/-- Lines 346-383 for one filtered row: the benchmark joined back per
context (null when the row has a null time key, since `groupby` drops null
keys and the merge then finds no match), the signed per-line saving, and
the percentage deviation (`np.where` over a positive benchmark; a null
benchmark fails the condition and yields `0`). -/
def radarRowOf (limpo : List Row) (r : Row) : RadarRow :=
  { id_pedido := r.id_pedido
    id_produto := r.id_produto
    id_instituicao := r.id_instituicao
    id_fabricante := r.id_fabricante
    id_fornecedor := r.id_fornecedor
    id_tempo := r.id_tempo
    pmpPagoLinha := r.preco_unitario
    pmpBenchmarkReferencia := r.id_tempo.map
      (fun t => benchmarkDe limpo r.id_produto r.id_instituicao t)
    desvioPctOportunidade :=
      match r.id_tempo.map
        (fun t => benchmarkDe limpo r.id_produto r.id_instituicao t) with
      | none => 0
      | some b => if 0 < b then (r.preco_unitario - b) / b else 0
    economiaPorLinha := (r.id_tempo.map
      (fun t => benchmarkDe limpo r.id_produto r.id_instituicao t)).map
      (fun b => (r.preco_unitario - b) * r.qtd_itens_comprados) }

/-- Embedding of `gerar_mini_fato_radar_enriquecida` (src/modelagem_dim.py
lines 314-387).  Missing required columns: empty result (lines 325-327).
The explicit empty-filter early return of lines 334-336 produces the same
empty output as mapping over the empty filtered list. -/
def gerar_mini_fato_radar_enriquecida (df : DF) : List RadarRow :=
  if hasCols df radarCols then
    (radarFiltro df.rows).map (radarRowOf (radarFiltro df.rows))
  else []

/-- C8: every radar row originates from a fact row with strictly positive
total price and strictly positive quantity (no radar row has a
non-positive price or quantity), and carries the group median benchmark,
`Economia_por_Linha = (unit price - benchmark) * quantity` and
`Desvio_%_Oportunidade = (unit price - benchmark) / benchmark` when the
benchmark is strictly positive and `0` otherwise, the benchmark being the
median unit price of the row's (product, institution, time) group of the
filtered table. -/
theorem C8_radar (df : DF) (h : hasCols df radarCols = true)
    (htempo : ∀ s ∈ df.rows, s.id_tempo.isSome = true) :
    ∀ rr ∈ gerar_mini_fato_radar_enriquecida df,
      ∃ r ∈ df.rows, 0 < r.preco_total ∧ 0 < r.qtd_itens_comprados ∧
        rr.pmpPagoLinha = r.preco_unitario ∧
        ∃ t, r.id_tempo = some t ∧
          rr.pmpBenchmarkReferencia = some (benchmarkDe
            (radarFiltro df.rows) r.id_produto r.id_instituicao t) ∧
          rr.economiaPorLinha = some ((r.preco_unitario - benchmarkDe
            (radarFiltro df.rows) r.id_produto r.id_instituicao t) *
            r.qtd_itens_comprados) ∧
          rr.desvioPctOportunidade =
            (if 0 < benchmarkDe (radarFiltro df.rows) r.id_produto
                r.id_instituicao t
             then (r.preco_unitario - benchmarkDe (radarFiltro df.rows)
                r.id_produto r.id_instituicao t) / benchmarkDe
                (radarFiltro df.rows) r.id_produto r.id_instituicao t
             else 0) := by
  intro rr hrr
  rw [gerar_mini_fato_radar_enriquecida, if_pos h] at hrr
  rcases List.mem_map.mp hrr with ⟨r, hrf, rfl⟩
  have hrmem : r ∈ df.rows := List.mem_of_mem_filter hrf
  have hcond := List.of_mem_filter hrf
  simp only [decide_eq_true_eq] at hcond
  obtain ⟨t, ht⟩ := Option.isSome_iff_exists.mp (htempo r hrmem)
  refine ⟨r, hrmem, hcond.1, hcond.2, rfl, t, ht, ?_, ?_, ?_⟩
  · show r.id_tempo.map _ = _
    rw [ht, Option.map_some']
  · show (r.id_tempo.map _).map _ = _
    rw [ht, Option.map_some', Option.map_some']
  · show (match r.id_tempo.map
        (fun t => benchmarkDe (radarFiltro df.rows) r.id_produto
          r.id_instituicao t) with
      | none => (0 : ℚ)
      | some b => if 0 < b then (r.preco_unitario - b) / b else 0) = _
    rw [ht, Option.map_some']

/-- Concrete table for the C8 witness: two valid rows in one benchmark
group plus one excluded zero-price row. -/
noncomputable def dfR : DF :=
  { cols := ["id_produto", "id_instituicao", "id_tempo", "id_pedido",
      "id_fornecedor", "id_fabricante", "preco_unitario", "preco_total",
      "qtd_itens_comprados"]
    rows :=
      [{ id_produto := "P1", id_instituicao := "I1",
         id_tempo := some 20240115, id_pedido := "a", id_fornecedor := "F",
         id_fabricante := "M", preco_unitario := 10, preco_total := 100,
         qtd_itens_comprados := 10 },
       { id_produto := "P1", id_instituicao := "I1",
         id_tempo := some 20240115, id_pedido := "b", id_fornecedor := "F",
         id_fabricante := "M", preco_unitario := 30, preco_total := 300,
         qtd_itens_comprados := 10 },
       { id_produto := "P1", id_instituicao := "I1",
         id_tempo := some 20240115, id_pedido := "c", id_fornecedor := "F",
         id_fabricante := "M", preco_unitario := 0, preco_total := 0,
         qtd_itens_comprados := 5 }] }

/-- Witness for C8 at the concrete table `dfR`. -/
theorem C8_radar_witness :
    hasCols dfR radarCols = true ∧
    (∀ s ∈ dfR.rows, s.id_tempo.isSome = true) ∧
    (∀ rr ∈ gerar_mini_fato_radar_enriquecida dfR,
      ∃ r ∈ dfR.rows, 0 < r.preco_total ∧ 0 < r.qtd_itens_comprados ∧
        rr.pmpPagoLinha = r.preco_unitario ∧
        ∃ t, r.id_tempo = some t ∧
          rr.pmpBenchmarkReferencia = some (benchmarkDe
            (radarFiltro dfR.rows) r.id_produto r.id_instituicao t) ∧
          rr.economiaPorLinha = some ((r.preco_unitario - benchmarkDe
            (radarFiltro dfR.rows) r.id_produto r.id_instituicao t) *
            r.qtd_itens_comprados) ∧
          rr.desvioPctOportunidade =
            (if 0 < benchmarkDe (radarFiltro dfR.rows) r.id_produto
                r.id_instituicao t
             then (r.preco_unitario - benchmarkDe (radarFiltro dfR.rows)
                r.id_produto r.id_instituicao t) / benchmarkDe
                (radarFiltro dfR.rows) r.id_produto r.id_instituicao t
             else 0)) :=
  ⟨by decide, by decide, C8_radar dfR (by decide) (by decide)⟩

/-! ## Function 5: order-identity hash and final ordering
(src/modelagem_dim.py lines 243-308) -/

/-- The eleven hash-input columns (line 251, in the fixed order). -/
def colunasHash : List String :=
  ["cnpj_instituicao", "compra", "codigo_br", "cnpj_fornecedor",
   "qtd_itens_comprados", "preco_unitario", "cnpj_fabricante", "insercao",
   "unidade_fornecimento_capacidade", "capacidade", "unidade_medida"]

/-- The underscore-delimited key of lines 258-272: CNPJ roots for the
three tax identifiers, `str(...)` renderings of dates and numbers, and
stripped raw strings for the remaining fields (`strip` is the identity on
the canonical date and number renderings, which carry no outer
whitespace). -/
def chaveConcatenada (r : Row) : String :=
  cnpjRaiz r.cnpj_instituicao ++ "_" ++ dateStr r.compra ++ "_" ++
  r.codigo_br.trim ++ "_" ++ cnpjRaiz r.cnpj_fornecedor ++ "_" ++
  pyFloatStr r.qtd_itens_comprados ++ "_" ++
  pyFloatStr r.preco_unitario ++ "_" ++
  cnpjRaiz r.cnpj_fabricante ++ "_" ++ dateStr r.insercao ++ "_" ++
  r.unidade_fornecimento_capacidade.trim ++ "_" ++
  pyFloatStr r.capacidade ++ "_" ++
  r.unidade_medida.trim

/-- Line 273: the MD5 hex digest of the UTF-8 encoded key. -/
def calcular_hash_pedido (r : Row) : String :=
  md5Hex (utf8Bytes (chaveConcatenada r))

/-- Line 275 for one row. -/
def hashRow (r : Row) : Row :=
  { r with id_pedido := calcular_hash_pedido r }

/-- Lines 251-275: assign the hash when all eleven columns are present;
otherwise skip hashing and continue (the `pass` of line 255). -/
def hashStage (df : DF) : DF :=
  if hasCols df colunasHash then
    { cols := insertCol df.cols "id_pedido"
      rows := df.rows.map hashRow }
  else df

/-- The residual columns dropped at lines 277-287. -/
def residuais : List String :=
  ["unidade_fornecimento_capacidade", "capacidade", "unidade_medida"]

/-- Lines 277-287: drop each residual column that is present (a column
drop removes the label; row data of other columns is untouched). -/
def dropResiduais (df : DF) : DF :=
  { cols := df.cols.filter (fun c => decide (c ∉ residuais))
    rows := df.rows }

/-- Sort key of the final `sort_values(by=['compra', 'codigo_br'],
ascending=True)` (line 295): chronological purchase date with null dates
last (`na_position='last'`, the pandas default), then catalogue code. -/
def sortKey (r : Row) :
    Lex ((WithTop (Lex (ℕ × Lex (ℕ × ℕ)))) × String) :=
  toLex
    (match r.compra with
     | none => (⊤ : WithTop (Lex (ℕ × Lex (ℕ × ℕ))))
     | some t => ((toLex (t.y, toLex (t.m, t.d)) :
        Lex (ℕ × Lex (ℕ × ℕ))) : WithTop (Lex (ℕ × Lex (ℕ × ℕ)))),
     r.codigo_br)

/-- Comparison used by the stable multi-key sort. -/
noncomputable def pedidoSortLt (a b : Row) : Bool :=
  decide (sortKey a < sortKey b)

/-- Single-key comparison of the fallback branch at line 298 (sort by
`compra` alone).  A single-column pandas sort uses `numpy` quicksort,
whose relative order of tied rows is unspecified; the stable model below
is one refinement of it, and no verified claim depends on this branch. -/
noncomputable def pedidoSortLtCompra (a b : Row) : Bool :=
  decide ((sortKey a).1 < (sortKey b).1)

/-- Lines 294-299: the deterministic final sort.  With several `by` keys
pandas sorts with the stable `numpy.lexsort` (the `kind` option applies
only to single-column sorts), embedded as a stable insertion sort. -/
noncomputable def sortStage (df : DF) : DF :=
  if "compra" ∈ df.cols ∧ "codigo_br" ∈ df.cols then
    { cols := df.cols, rows := insSort pedidoSortLt df.rows }
  else if "compra" ∈ df.cols then
    { cols := df.cols, rows := insSort pedidoSortLtCompra df.rows }
  else df

/-- Lines 301-304: reorder the columns with `id_pedido` leading. -/
def idPedidoFirst (df : DF) : DF :=
  if "id_pedido" ∈ df.cols then
    { cols := "id_pedido" ::
        df.cols.filter (fun c => decide (c ≠ "id_pedido"))
      rows := df.rows }
  else df

/-- Embedding of `gerar_id_pedido` (src/modelagem_dim.py lines 243-308):
early return on an empty frame (lines 247-249), hash assignment, residual
drop, re-invocation of the z-score stage (line 292), final sort and
column reorder. -/
noncomputable def gerar_id_pedido (df : DF) : DF :=
  if df.rows.isEmpty || df.cols.isEmpty then df
  else
    idPedidoFirst (sortStage
      (calcular_zscore_risco (dropResiduais (hashStage df))))

/-- The end-to-end row transform of `gerar_id_pedido` before the final
sort: hash assignment followed by the z-score enrichment of the hashed
table. -/
noncomputable def pedidoTransform (df : DF) (r : Row) : Row :=
  zscoreEnrich (zscorePrep (df.rows.map hashRow)) (prepRow (hashRow r))

/-- Column list after hash assignment and residual drop. -/
def midColsOf (df : DF) : List String :=
  (insertCol df.cols "id_pedido").filter (fun c => decide (c ∉ residuais))

/-- Column list after the z-score re-invocation inside `gerar_id_pedido`. -/
def zcolsOf (df : DF) : List String :=
  insertCols (midColsOf df)
    ["ano_compra", "pmp_individual", "pmp_medio", "pmp_desvio_padrao",
      "score_z_risco"]

theorem gerar_mid_shape (df : DF) (h : hasCols df colunasHash = true)
    (hpt : "preco_total" ∈ df.cols) :
    calcular_zscore_risco (dropResiduais (hashStage df)) =
      { cols := zcolsOf df, rows := df.rows.map (pedidoTransform df) }
    := by
  have h1 : dropResiduais (hashStage df) =
      { cols := midColsOf df, rows := df.rows.map hashRow } := by
    rw [hashStage, if_pos h]
    rfl
  have hmemdf := hasCols_iff.mp h
  have hz : hasCols ({ cols := midColsOf df, rows := df.rows.map hashRow } : DF) zscoreCols = true := by
    rw [hasCols_iff]
    intro c hc
    have hc4 : c = "compra" ∨ c = "codigo_br" ∨ c = "preco_total" ∨
        c = "qtd_itens_comprados" := by simpa [zscoreCols] using hc
    have hcdf : c ∈ df.cols := by
      rcases hc4 with rfl | rfl | rfl | rfl
      · exact hmemdf _ (by decide)
      · exact hmemdf _ (by decide)
      · exact hpt
      · exact hmemdf _ (by decide)
    show c ∈ midColsOf df
    refine List.mem_filter.mpr ⟨mem_insertCol.mpr (Or.inl hcdf), ?_⟩
    rcases hc4 with rfl | rfl | rfl | rfl <;> decide
  rw [h1, zscore_happy _ hz]
  rw [List.map_map]
  rfl

theorem mem_midColsOf {df : DF} {c : String} (hc : c ∈ df.cols)
    (hres : c ∉ residuais) : c ∈ midColsOf df := by
  refine List.mem_filter.mpr ⟨mem_insertCol.mpr (Or.inl hc), ?_⟩
  simpa using hres

theorem gerar_shape (df : DF) (h : hasCols df colunasHash = true)
    (hpt : "preco_total" ∈ df.cols) (hne : df.rows ≠ [])
    (hcne : df.cols ≠ []) :
    gerar_id_pedido df =
      { cols := "id_pedido" ::
          (zcolsOf df).filter (fun c => decide (c ≠ "id_pedido"))
        rows := insSort pedidoSortLt (df.rows.map (pedidoTransform df)) }
    := by
  have hguard : (df.rows.isEmpty || df.cols.isEmpty) = false := by
    rw [Bool.or_eq_false_iff]
    constructor
    · simpa [List.isEmpty_iff] using hne
    · simpa [List.isEmpty_iff] using hcne
  rw [gerar_id_pedido, hguard]
  simp only [Bool.false_eq_true, if_false]
  rw [gerar_mid_shape df h hpt]
  have hmemdf := hasCols_iff.mp h
  have hmid : ∀ c, c ∈ df.cols → c ∉ residuais → c ∈ zcolsOf df := by
    intro c hc hres
    exact mem_insertCols.mpr (Or.inl (mem_midColsOf hc hres))
  have hsortguard : "compra" ∈ zcolsOf df ∧ "codigo_br" ∈ zcolsOf df :=
    ⟨hmid _ (hmemdf _ (by decide)) (by decide),
     hmid _ (hmemdf _ (by decide)) (by decide)⟩
  have hidmem : "id_pedido" ∈ zcolsOf df := by
    refine mem_insertCols.mpr (Or.inl ?_)
    refine List.mem_filter.mpr ⟨mem_insertCol.mpr (Or.inr rfl), ?_⟩
    decide
  rw [sortStage]
  rw [if_pos hsortguard]
  rw [idPedidoFirst]
  rw [if_pos hidmem]

/-- C9: confirmed on the multi-key sort path — the final row order of
`gerar_id_pedido` is sorted by (purchase date ascending with null dates
last, catalogue code ascending), rows with equal sort keys keep their
input order (the per-key row slices of the output equal the transformed
per-key slices of the input, in input order), and `id_pedido` is placed
as the leading column. -/
theorem C9_ordenacao (df : DF) (h : hasCols df colunasHash = true)
    (hpt : "preco_total" ∈ df.cols) (hne : df.rows ≠ [])
    (hcne : df.cols ≠ []) :
    (gerar_id_pedido df).rows.Pairwise
      (fun a b => sortKey a ≤ sortKey b) ∧
    (∀ k, (gerar_id_pedido df).rows.filter
        (fun r => decide (sortKey r = k)) =
      (df.rows.filter (fun r => decide (sortKey r = k))).map
        (pedidoTransform df)) ∧
    (gerar_id_pedido df).cols.head? = some "id_pedido" := by
  rw [gerar_shape df h hpt hne hcne]
  refine ⟨?_, ?_, rfl⟩
  · show (insSort (fun a b => decide (sortKey a < sortKey b))
      (df.rows.map (pedidoTransform df))).Pairwise
      (fun a b => sortKey a ≤ sortKey b)
    exact insSort_pairwise sortKey _
  · intro k
    show (insSort (fun a b => decide (sortKey a < sortKey b))
      (df.rows.map (pedidoTransform df))).filter
        (fun r => decide (sortKey r = k)) = _
    rw [filter_insSort sortKey k]
    rw [filter_of_map]
    rfl

/-- C3: with the eleven hash-input columns present, two rows with
identical values in all eleven fields receive the identical identifier;
the identifier is the MD5 hex digest of the underscore-delimited
concatenation of the fixed ordered tuple; the emitted rows are exactly
the transformed input rows (up to the final sort), every emitted row's
`id_pedido` equals the digest of its own eleven fields, and every input
row yields an emitted row carrying its digest. -/
theorem C3_hash_identidade (df : DF) (h : hasCols df colunasHash = true)
    (hpt : "preco_total" ∈ df.cols) (hne : df.rows ≠ [])
    (hcne : df.cols ≠ []) :
    (∀ r s : Row,
      r.cnpj_instituicao = s.cnpj_instituicao → r.compra = s.compra →
      r.codigo_br = s.codigo_br →
      r.cnpj_fornecedor = s.cnpj_fornecedor →
      r.qtd_itens_comprados = s.qtd_itens_comprados →
      r.preco_unitario = s.preco_unitario →
      r.cnpj_fabricante = s.cnpj_fabricante → r.insercao = s.insercao →
      r.unidade_fornecimento_capacidade =
        s.unidade_fornecimento_capacidade →
      r.capacidade = s.capacidade → r.unidade_medida = s.unidade_medida →
      calcular_hash_pedido r = calcular_hash_pedido s) ∧
    (∀ r : Row, calcular_hash_pedido r =
      md5Hex (utf8Bytes (chaveConcatenada r))) ∧
    List.Perm (gerar_id_pedido df).rows
      (df.rows.map (pedidoTransform df)) ∧
    (∀ rr ∈ (gerar_id_pedido df).rows,
      rr.id_pedido = calcular_hash_pedido rr) ∧
    (∀ r ∈ df.rows, ∃ rr ∈ (gerar_id_pedido df).rows,
      rr.id_pedido = calcular_hash_pedido r) := by
  have hperm : List.Perm (gerar_id_pedido df).rows
      (df.rows.map (pedidoTransform df)) := by
    rw [gerar_shape df h hpt hne hcne]
    exact insSort_perm _ _
  refine ⟨?_, fun r => rfl, hperm, ?_, ?_⟩
  · intro r s h1 h2 h3 h4 h5 h6 h7 h8 h9 h10 h11
    simp only [calcular_hash_pedido, chaveConcatenada, h1, h2, h3, h4, h5,
      h6, h7, h8, h9, h10, h11]
  · intro rr hrr
    have hmapped := hperm.mem_iff.mp hrr
    rcases List.mem_map.mp hmapped with ⟨r, _, rfl⟩
    rfl
  · intro r hr
    refine ⟨pedidoTransform df r, ?_, rfl⟩
    exact hperm.mem_iff.mpr (List.mem_map.mpr ⟨r, hr, rfl⟩)

/-- Concrete two-row table with all eleven hash columns plus
`preco_total` for the identity and ordering witnesses. -/
noncomputable def dfH : DF :=
  { cols := ["cnpj_instituicao", "compra", "codigo_br", "cnpj_fornecedor",
      "qtd_itens_comprados", "preco_unitario", "cnpj_fabricante",
      "insercao", "unidade_fornecimento_capacidade", "capacidade",
      "unidade_medida", "preco_total"]
    rows :=
      [{ cnpj_instituicao := "12.345.678/0001-90",
         compra := some ⟨2024, 3, 1⟩, codigo_br := "456",
         cnpj_fornecedor := "11222333000144", qtd_itens_comprados := 2,
         preco_unitario := 5, cnpj_fabricante := "99888777000166",
         insercao := some ⟨2024, 3, 2⟩,
         unidade_fornecimento_capacidade := "CX", capacidade := 10,
         unidade_medida := "MG", preco_total := 10 },
       { cnpj_instituicao := "12.345.678/0001-90",
         compra := some ⟨2024, 1, 1⟩, codigo_br := "123",
         cnpj_fornecedor := "11222333000144", qtd_itens_comprados := 1,
         preco_unitario := 7, cnpj_fabricante := "99888777000166",
         insercao := some ⟨2024, 1, 2⟩,
         unidade_fornecimento_capacidade := "CX", capacidade := 10,
         unidade_medida := "MG", preco_total := 7 }] }

theorem dfH_rows_ne : dfH.rows ≠ [] := by
  intro hcontra
  have : dfH.rows.length = 0 := by rw [hcontra]; rfl
  simp [dfH] at this

theorem dfH_cols_ne : dfH.cols ≠ [] := by decide

/-- Witness for C3 at the concrete table `dfH`. -/
theorem C3_hash_identidade_witness :
    hasCols dfH colunasHash = true ∧ "preco_total" ∈ dfH.cols ∧
    dfH.rows ≠ [] ∧ dfH.cols ≠ [] ∧
    ((∀ r s : Row,
      r.cnpj_instituicao = s.cnpj_instituicao → r.compra = s.compra →
      r.codigo_br = s.codigo_br →
      r.cnpj_fornecedor = s.cnpj_fornecedor →
      r.qtd_itens_comprados = s.qtd_itens_comprados →
      r.preco_unitario = s.preco_unitario →
      r.cnpj_fabricante = s.cnpj_fabricante → r.insercao = s.insercao →
      r.unidade_fornecimento_capacidade =
        s.unidade_fornecimento_capacidade →
      r.capacidade = s.capacidade → r.unidade_medida = s.unidade_medida →
      calcular_hash_pedido r = calcular_hash_pedido s) ∧
    (∀ r : Row, calcular_hash_pedido r =
      md5Hex (utf8Bytes (chaveConcatenada r))) ∧
    List.Perm (gerar_id_pedido dfH).rows
      (dfH.rows.map (pedidoTransform dfH)) ∧
    (∀ rr ∈ (gerar_id_pedido dfH).rows,
      rr.id_pedido = calcular_hash_pedido rr) ∧
    (∀ r ∈ dfH.rows, ∃ rr ∈ (gerar_id_pedido dfH).rows,
      rr.id_pedido = calcular_hash_pedido r)) :=
  ⟨by decide, by decide, dfH_rows_ne, dfH_cols_ne,
   C3_hash_identidade dfH (by decide) (by decide) dfH_rows_ne dfH_cols_ne⟩

/-- Witness for C9 at the concrete table `dfH`. -/
theorem C9_ordenacao_witness :
    hasCols dfH colunasHash = true ∧ "preco_total" ∈ dfH.cols ∧
    dfH.rows ≠ [] ∧ dfH.cols ≠ [] ∧
    ((gerar_id_pedido dfH).rows.Pairwise
      (fun a b => sortKey a ≤ sortKey b) ∧
    (∀ k, (gerar_id_pedido dfH).rows.filter
        (fun r => decide (sortKey r = k)) =
      (dfH.rows.filter (fun r => decide (sortKey r = k))).map
        (pedidoTransform dfH)) ∧
    (gerar_id_pedido dfH).cols.head? = some "id_pedido") :=
  ⟨by decide, by decide, dfH_rows_ne, dfH_cols_ne,
   C9_ordenacao dfH (by decide) (by decide) dfH_rows_ne dfH_cols_ne⟩

/-! ## Dimension extraction and integration (src/dimensoes.py) -/

/-- Attribute projection of the Institution dimension (line 59). -/
def atributosInstituicao (r : Row) : List String :=
  [r.cnpj_instituicao, r.nome_instituicao, r.municipio_instituicao, r.uf]

/-- Attribute columns of the Institution dimension. -/
def colInst : List String :=
  ["cnpj_instituicao", "nome_instituicao", "municipio_instituicao", "uf"]

/-- Attribute projection of the Product dimension (line 63). -/
def atributosProduto (r : Row) : List String :=
  [r.codigo_br, r.descricao_catmat, r.generico, r.unidade_fornecimento]

/-- Attribute columns of the Product dimension. -/
def colProd : List String :=
  ["codigo_br", "descricao_catmat", "generico", "unidade_fornecimento"]

/-- Attribute projection of the Supplier dimension (line 67). -/
def atributosFornecedor (r : Row) : List String :=
  [r.cnpj_fornecedor, r.fornecedor]

/-- Attribute columns of the Supplier dimension. -/
def colForn : List String := ["cnpj_fornecedor", "fornecedor"]

/-- Attribute projection of the Manufacturer dimension (line 74). -/
def atributosFabricante (r : Row) : List String :=
  [r.cnpj_fabricante, r.fabricante]

/-- Attribute columns of the Manufacturer dimension. -/
def colFabr : List String := ["cnpj_fabricante", "fabricante"]

/-- The dimension table built by `_criar_dimensao` (src/dimensoes.py
lines 21-38): the distinct attribute combinations in first-occurrence
order (`drop_duplicates`, line 24), the n-th (0-based) receiving the
surrogate key `prefixo` followed by `n + 1` zero-padded to five digits
(lines 29-33). -/
def criarDimensao (rows : List Row) (atributos : Row → List String)
    (prefixo : String) : List (String × List String) :=
  (List.range (dedupFirst (rows.map atributos)).length).map
    (fun n => (prefixo ++ pad5 (n + 1),
      (dedupFirst (rows.map atributos)).getD n []))

/-- Surrogate key looked up by the left join of `_criar_dimensao`
(lines 41-46): the key of the dimension row whose attribute tuple matches
(always found; the empty-string default is the unreachable no-match
null). -/
def lookupSK (dim : List (String × List String)) (t : List String) :
    String :=
  ((dim.find? (fun e => decide (e.2 = t))).map Prod.fst).getD ""

/-- Column effect of one `_criar_dimensao` integration: merge appends the
surrogate-key column at the end, then the natural attribute columns are
dropped (lines 41-49). -/
def integraCols (cs : List String) (atributos : List String)
    (chave : String) : List String :=
  cs.filter (fun c => decide (c ∉ atributos)) ++ [chave]

/-- Time key of the Time dimension (lines 90-92): the date formatted as
the integer `YYYYMMDD`. -/
def idTempoDe (t : Date) : ℕ := 10000 * t.y + 100 * t.m + t.d

/-- The Institution dimension (src/dimensoes.py line 60). -/
def dimInstDe (df : DF) : List (String × List String) :=
  criarDimensao df.rows atributosInstituicao "Ins"

/-- Fact table after Institution integration (line 60). -/
def df1De (df : DF) : DF :=
  { cols := integraCols df.cols colInst "id_instituicao"
    rows := df.rows.map (fun r =>
      { r with id_instituicao :=
          lookupSK (dimInstDe df) (atributosInstituicao r) }) }

/-- The Product dimension (line 64), built on the current fact. -/
def dimProdDe (df : DF) : List (String × List String) :=
  criarDimensao (df1De df).rows atributosProduto "Pro"

/-- Fact table after Product integration (line 64). -/
def df2De (df : DF) : DF :=
  { cols := integraCols (df1De df).cols colProd "id_produto"
    rows := (df1De df).rows.map (fun r =>
      { r with id_produto :=
          lookupSK (dimProdDe df) (atributosProduto r) }) }

/-- The Supplier dimension (line 69). -/
def dimFornDe (df : DF) : List (String × List String) :=
  criarDimensao (df2De df).rows atributosFornecedor "For"

/-- Fact table after the guarded Supplier integration (lines 68-71). -/
def df3De (df : DF) : DF :=
  if hasCols (df2De df) colForn then
    { cols := integraCols (df2De df).cols colForn "id_fornecedor"
      rows := (df2De df).rows.map (fun r =>
        { r with id_fornecedor :=
            lookupSK (dimFornDe df) (atributosFornecedor r) }) }
  else df2De df

/-- The Manufacturer dimension (line 76). -/
def dimFabrDe (df : DF) : List (String × List String) :=
  criarDimensao (df3De df).rows atributosFabricante "Fab"

/-- Fact table after the guarded Manufacturer integration (lines 75-78). -/
def df4De (df : DF) : DF :=
  if hasCols (df3De df) colFabr then
    { cols := integraCols (df3De df).cols colFabr "id_fabricante"
      rows := (df3De df).rows.map (fun r =>
        { r with id_fabricante :=
            lookupSK (dimFabrDe df) (atributosFabricante r) }) }
  else df3De df

/-- Fact table after the Time block (lines 84-118), which runs inside
`try`.  With `compra` present and at least one valid date: the `id_tempo`
key is joined on the raw date and the date column is renamed to
`data_compra` (the rename relabels the column; the value is carried by
the new label).  With `compra` present but no valid date, the `iloc[0]`
log call at line 112 raises after the merge and the rename, and the
`except` renames the date column back — leaving the all-null `id_tempo`
column in place.  With `compra` absent the block fails before any
mutation. -/
def df5De (df : DF) : DF :=
  if "compra" ∈ (df4De df).cols then
    if (dedupFirst ((df4De df).rows.map
        (fun r => r.compra))).filterMap id ≠ [] then
      { cols := ((df4De df).cols ++ ["id_tempo"]).map
          (fun c => if c = "compra" then "data_compra" else c)
        rows := (df4De df).rows.map (fun r =>
          { r with
            id_tempo := r.compra.map idTempoDe
            data_compra := r.compra }) }
    else
      { cols := (df4De df).cols ++ ["id_tempo"]
        rows := (df4De df).rows.map (fun r =>
          { r with id_tempo := none }) }
  else df4De df

/-- The surrogate keys accumulated in creation order (lines 18 and 52,
`id_tempo` appended at line 110 whenever the Time block reaches it). -/
def chavesDe (df : DF) : List String :=
  ["id_pedido", "id_instituicao", "id_produto"] ++
  (if hasCols (df2De df) colForn then ["id_fornecedor"] else []) ++
  (if hasCols (df3De df) colFabr then ["id_fabricante"] else []) ++
  (if "compra" ∈ (df4De df).cols then ["id_tempo"] else [])

/-- The final column reorder of lines 123-132: present surrogate keys
first, then the present context columns, then the rest in prior order. -/
def fatoDe (df : DF) : DF :=
  { cols := (chavesDe df).filter (fun c => decide (c ∈ (df5De df).cols))
      ++ (["modalidade_compra", "tipo_compra"].filter
        (fun c => decide (c ∈ (df5De df).cols)))
      ++ (df5De df).cols.filter (fun c => decide (c ∉
        (chavesDe df).filter (fun c2 => decide (c2 ∈ (df5De df).cols)) ++
        ["modalidade_compra", "tipo_compra"]))
    rows := (df5De df).rows }

/-- The dimension tables produced, with their prefixes. -/
def dimsDe (df : DF) :
    List (String × String × List (String × List String)) :=
  [("instituicao", "Ins", dimInstDe df), ("produto", "Pro", dimProdDe df)]
  ++ (if hasCols (df2De df) colForn
      then [("fornecedor", "For", dimFornDe df)] else [])
  ++ (if hasCols (df3De df) colFabr
      then [("fabricante", "Fab", dimFabrDe df)] else [])

/-- Embedding of `criar_e_integrar_dimensoes` (src/dimensoes.py lines
10-134), with the CSV exports omitted (pure I/O).  The error branch
embeds the uncaught exceptions of the unguarded paths: a `KeyError` when
the Institution or Product attribute columns are missing (lines 59-64
access them bare) and the `IndexError` of the `iloc[0]` log call at
line 38 on an empty frame.  The Supplier and Manufacturer dimensions are
guarded (lines 68, 75) and skipped when absent. -/
def criar_e_integrar_dimensoes (df : DF) :
    Except String (DF × List (String × String × List (String ×
      List String))) :=
  if hasCols df colInst ∧ hasCols df colProd ∧
      df.rows.isEmpty = false then
    Except.ok (fatoDe df, dimsDe df)
  else Except.error "KeyError"

theorem string_data_eq {s t : String} (h : s.data = t.data) : s = t := by
  cases s
  cases t
  exact congrArg String.mk h

theorem prefixo_pad5_injective (prefixo : String) :
    Function.Injective (fun n => prefixo ++ pad5 (n + 1)) := by
  intro a b hab
  have hdata : prefixo.data ++ (pad5 (a + 1)).data =
      prefixo.data ++ (pad5 (b + 1)).data := congrArg String.data hab
  have h2 : (pad5 (a + 1)).data = (pad5 (b + 1)).data :=
    List.append_cancel_left hdata
  have h3 : pad5 (a + 1) = pad5 (b + 1) := string_data_eq h2
  have h4 := pad5_injective h3
  omega

theorem criarDimensao_length (rows : List Row)
    (atributos : Row → List String) (prefixo : String) :
    (criarDimensao rows atributos prefixo).length =
      (dedupFirst (rows.map atributos)).length := by
  rw [criarDimensao, List.length_map, List.length_range]

theorem criarDimensao_getD (rows : List Row)
    (atributos : Row → List String) (prefixo : String) (n : ℕ)
    (hn : n < (dedupFirst (rows.map atributos)).length) :
    (criarDimensao rows atributos prefixo).getD n ("", []) =
      (prefixo ++ pad5 (n + 1),
        (dedupFirst (rows.map atributos)).getD n []) := by
  rw [criarDimensao]
  rw [getD_map _ _ n ("", []) 0 (by simpa [List.length_range] using hn)]
  rw [List.getD_eq_getElem _ _ (by simpa [List.length_range] using hn)]
  rw [List.getElem_range]

theorem criarDimensao_keys_nodup (rows : List Row)
    (atributos : Row → List String) (prefixo : String) :
    ((criarDimensao rows atributos prefixo).map Prod.fst).Nodup := by
  rw [criarDimensao, List.map_map]
  have hfun : (Prod.fst ∘ fun n => (prefixo ++ pad5 (n + 1),
      (dedupFirst (rows.map atributos)).getD n [])) =
      fun n => prefixo ++ pad5 (n + 1) := rfl
  rw [hfun]
  exact List.Nodup.map (prefixo_pad5_injective prefixo)
    (List.nodup_range _)

theorem criarDimensao_key_len5 (rows : List Row)
    (atributos : Row → List String) (prefixo : String) (n : ℕ)
    (hn : n + 1 ≤ 99999) :
    (prefixo ++ pad5 (n + 1)).length = prefixo.length + 5 := by
  have hlen : (pad5 (n + 1)).length = 5 := by
    rw [pad5_length]
    have hlog : Nat.log 10 (n + 1) < 5 := by
      refine Nat.log_lt_of_lt_pow (by omega) ?_
      have hpow : (10 : ℕ) ^ 5 = 100000 := by norm_num
      omega
    have hdig : (Nat.digits 10 (n + 1)).length = Nat.log 10 (n + 1) + 1 :=
      Nat.digits_len 10 (n + 1) (by norm_num) (by omega)
    omega
  have happ : (prefixo ++ pad5 (n + 1)).length =
      prefixo.length + (pad5 (n + 1)).length := by
    show (prefixo.data ++ (pad5 (n + 1)).data).length = _
    rw [List.length_append]
    rfl
  rw [happ, hlen]

theorem criarDimensao_map_invariant {rows : List Row} (f : Row → Row)
    (atributos : Row → List String) (prefixo : String)
    (hf : ∀ r, atributos (f r) = atributos r) :
    criarDimensao (rows.map f) atributos prefixo =
      criarDimensao rows atributos prefixo := by
  rw [criarDimensao, criarDimensao, List.map_map]
  have hmap : rows.map (atributos ∘ f) = rows.map atributos :=
    List.map_congr_left (fun r _ => hf r)
  rw [hmap]

theorem dimProd_eq (df : DF) :
    dimProdDe df = criarDimensao df.rows atributosProduto "Pro" :=
  criarDimensao_map_invariant _ atributosProduto "Pro" (fun r => rfl)

theorem dimForn_eq (df : DF) :
    dimFornDe df = criarDimensao df.rows atributosFornecedor "For" := by
  have h1 : dimFornDe df =
      criarDimensao (df1De df).rows atributosFornecedor "For" :=
    criarDimensao_map_invariant _ atributosFornecedor "For" (fun r => rfl)
  rw [h1]
  exact criarDimensao_map_invariant _ atributosFornecedor "For"
    (fun r => rfl)

theorem dimFabr_eq (df : DF) :
    dimFabrDe df = criarDimensao df.rows atributosFabricante "Fab" := by
  have h2 : criarDimensao (df2De df).rows atributosFabricante "Fab" =
      criarDimensao df.rows atributosFabricante "Fab" := by
    have ha : criarDimensao (df2De df).rows atributosFabricante "Fab" =
        criarDimensao (df1De df).rows atributosFabricante "Fab" :=
      criarDimensao_map_invariant _ atributosFabricante "Fab"
        (fun r => rfl)
    rw [ha]
    exact criarDimensao_map_invariant _ atributosFabricante "Fab"
      (fun r => rfl)
  rw [dimFabrDe, df3De]
  split
  · show criarDimensao ((df2De df).rows.map (fun r => { r with id_fornecedor := lookupSK (dimFornDe df) (atributosFornecedor r) })) atributosFabricante "Fab" = criarDimensao df.rows atributosFabricante "Fab"
    exact (criarDimensao_map_invariant (fun r => { r with id_fornecedor := lookupSK (dimFornDe df) (atributosFornecedor r) }) atributosFabricante "Fab" (fun r => rfl)).trans h2
  · exact h2

theorem dimProps (df : DF) (A : Row → List String) (pre : String) :
    (criarDimensao df.rows A pre).length =
      (dedupFirst (df.rows.map A)).length ∧
    (∀ n, n < (criarDimensao df.rows A pre).length →
      (criarDimensao df.rows A pre).getD n ("", []) =
        (pre ++ pad5 (n + 1), (dedupFirst (df.rows.map A)).getD n [])) ∧
    ((criarDimensao df.rows A pre).map Prod.fst).Nodup ∧
    (∀ n, n < (criarDimensao df.rows A pre).length → n + 1 ≤ 99999 →
      ((criarDimensao df.rows A pre).getD n ("", [])).1.length =
        pre.length + 5) := by
  refine ⟨criarDimensao_length _ _ _, ?_, criarDimensao_keys_nodup _ _ _,
    ?_⟩
  · intro n hn
    exact criarDimensao_getD _ _ _ n
      (by rwa [criarDimensao_length] at hn)
  · intro n hn h99
    rw [criarDimensao_getD _ _ _ n
      (by rwa [criarDimensao_length] at hn)]
    exact criarDimensao_key_len5 df.rows A pre n h99

/-- C2 (amended): every dimension built by `criar_e_integrar_dimensoes`
is the first-occurrence deduplication of its attribute projection of the
fact table, the n-th distinct combination (1-based) receiving the key
`prefix` followed by `n` zero-padded to at least five digits — exactly
five whenever `n` is at most 99999 —, and the keys are unique, sequential,
gapless and start at 1. -/
theorem C2_dimensoes (df : DF)
    (h : hasCols df colInst = true ∧ hasCols df colProd = true ∧
      df.rows.isEmpty = false) :
    ∀ out, criar_e_integrar_dimensoes df = Except.ok out →
      ∀ d ∈ out.2, ∃ atributos : Row → List String,
        d.2.2 = criarDimensao df.rows atributos d.2.1 ∧
        d.2.2.length = (dedupFirst (df.rows.map atributos)).length ∧
        (∀ n, n < d.2.2.length →
          d.2.2.getD n ("", []) = (d.2.1 ++ pad5 (n + 1),
            (dedupFirst (df.rows.map atributos)).getD n [])) ∧
        (d.2.2.map Prod.fst).Nodup ∧
        (∀ n, n < d.2.2.length → n + 1 ≤ 99999 →
          (d.2.2.getD n ("", [])).1.length = d.2.1.length + 5) := by
  intro out hout
  rw [criar_e_integrar_dimensoes, if_pos h] at hout
  have hdef := (Except.ok.injEq _ _).mp hout
  subst hdef
  intro d hd
  have hclose : ∀ (A : Row → List String) (pre : String),
      d.2.2 = criarDimensao df.rows A pre → d.2.1 = pre →
      ∃ atributos : Row → List String,
        d.2.2 = criarDimensao df.rows atributos d.2.1 ∧
        d.2.2.length = (dedupFirst (df.rows.map atributos)).length ∧
        (∀ n, n < d.2.2.length →
          d.2.2.getD n ("", []) = (d.2.1 ++ pad5 (n + 1),
            (dedupFirst (df.rows.map atributos)).getD n [])) ∧
        (d.2.2.map Prod.fst).Nodup ∧
        (∀ n, n < d.2.2.length → n + 1 ≤ 99999 →
          (d.2.2.getD n ("", [])).1.length = d.2.1.length + 5) := by
    intro A pre hA hpre
    rcases dimProps df A pre with ⟨p1, p2, p3, p4⟩
    refine ⟨A, ?_, ?_, ?_, ?_, ?_⟩
    · rw [hA, hpre]
    · rw [hA]
      exact p1
    · intro n hn
      rw [hA] at hn
      rw [hA, hpre]
      exact p2 n hn
    · rw [hA]
      exact p3
    · intro n hn h99
      rw [hA] at hn
      rw [hA, hpre]
      exact p4 n hn h99
  rw [dimsDe] at hd
  rcases List.mem_append.mp hd with hd1 | hd2
  · rcases List.mem_append.mp hd1 with hd3 | hd4
    · rcases List.mem_cons.mp hd3 with rfl | hd5
      · exact hclose atributosInstituicao "Ins" rfl rfl
      · rcases List.mem_cons.mp hd5 with rfl | hd6
        · exact hclose atributosProduto "Pro" (dimProd_eq df) rfl
        · cases hd6
    · by_cases hforn : hasCols (df2De df) colForn = true
      · rw [if_pos hforn] at hd4
        rcases List.mem_cons.mp hd4 with rfl | hd7
        · exact hclose atributosFornecedor "For" (dimForn_eq df) rfl
        · cases hd7
      · rw [if_neg hforn] at hd4
        cases hd4
  · by_cases hfabr : hasCols (df3De df) colFabr = true
    · rw [if_pos hfabr] at hd2
      rcases List.mem_cons.mp hd2 with rfl | hd8
      · exact hclose atributosFabricante "Fab" (dimFabr_eq df) rfl
      · cases hd8
    · rw [if_neg hfabr] at hd2
      cases hd2

/-- Concrete table for the C2 witness: rows 1 and 3 share the same
institution attributes, row 2 differs (the spec scenario). -/
noncomputable def dfD : DF :=
  { cols := colInst ++ colProd
    rows :=
      [{ cnpj_instituicao := "111", nome_instituicao := "A",
         municipio_instituicao := "X", uf := "SP", codigo_br := "1" },
       { cnpj_instituicao := "222", nome_instituicao := "B",
         municipio_instituicao := "Y", uf := "RJ", codigo_br := "1" },
       { cnpj_instituicao := "111", nome_instituicao := "A",
         municipio_instituicao := "X", uf := "SP", codigo_br := "2" }] }

/-- Witness for C2 at the concrete table `dfD`. -/
theorem C2_dimensoes_witness :
    (hasCols dfD colInst = true ∧ hasCols dfD colProd = true ∧
      dfD.rows.isEmpty = false) ∧
    (∀ out, criar_e_integrar_dimensoes dfD = Except.ok out →
      ∀ d ∈ out.2, ∃ atributos : Row → List String,
        d.2.2 = criarDimensao dfD.rows atributos d.2.1 ∧
        d.2.2.length = (dedupFirst (dfD.rows.map atributos)).length ∧
        (∀ n, n < d.2.2.length →
          d.2.2.getD n ("", []) = (d.2.1 ++ pad5 (n + 1),
            (dedupFirst (dfD.rows.map atributos)).getD n [])) ∧
        (d.2.2.map Prod.fst).Nodup ∧
        (∀ n, n < d.2.2.length → n + 1 ≤ 99999 →
          (d.2.2.getD n ("", [])).1.length = d.2.1.length + 5)) :=
  ⟨⟨by decide, by decide, by decide⟩,
   C2_dimensoes dfD ⟨by decide, by decide, by decide⟩⟩

/-- Fact table with one hundred thousand distinct institutions. -/
noncomputable def dfBig : DF :=
  { cols := colInst ++ colProd
    rows := (List.range 100000).map
      (fun i => { cnpj_instituicao := pad5 i }) }

theorem dfBig_rows : dfBig.rows = (List.range 100000).map
    (fun i => { cnpj_instituicao := pad5 i }) := by
  rw [dfBig]

theorem dfBig_inst_nodup :
    (dfBig.rows.map atributosInstituicao).Nodup := by
  rw [dfBig_rows, List.map_map]
  refine List.Nodup.map ?_ (List.nodup_range _)
  intro a b hab
  have h1 : pad5 a = pad5 b := by
    have h2 := congrArg (fun l => List.getD l 0 "") hab
    simpa [atributosInstituicao] using h2
  exact pad5_injective h1

theorem dfBig_dedup_len :
    (dedupFirst (dfBig.rows.map atributosInstituicao)).length = 100000
    := by
  rw [dedupFirst_eq_self dfBig_inst_nodup, dfBig_rows,
    List.length_map, List.length_map, List.length_range]

theorem pad5_100000_len : (pad5 100000).length = 6 := by
  rw [pad5_length]
  have hlog : Nat.log 10 100000 = 5 := by
    refine Nat.log_eq_of_pow_le_of_lt_pow ?_ ?_ <;> norm_num
  have hdig := Nat.digits_len 10 100000 (by norm_num) (by norm_num)
  rw [hdig, hlog]
  omega

theorem dfBig_ok : criar_e_integrar_dimensoes dfBig =
    Except.ok (fatoDe dfBig, dimsDe dfBig) := by
  have hlen_rows : dfBig.rows.length = 100000 := by
    rw [dfBig_rows, List.length_map, List.length_range]
  have hne : dfBig.rows.isEmpty = false := by
    have h0 : dfBig.rows ≠ [] := by
      intro h1
      rw [h1] at hlen_rows
      simp at hlen_rows
    simpa [List.isEmpty_iff] using h0
  have hguard : hasCols dfBig colInst = true ∧
      hasCols dfBig colProd = true ∧ dfBig.rows.isEmpty = false :=
    ⟨by decide, by decide, hne⟩
  rw [criar_e_integrar_dimensoes, if_pos hguard]

theorem dfBig_dims : dimsDe dfBig =
    [("instituicao", "Ins", dimInstDe dfBig),
     ("produto", "Pro", dimProdDe dfBig)] := by
  have hforn : ¬ hasCols (df2De dfBig) colForn = true := by decide
  have hfabr : ¬ hasCols (df3De dfBig) colFabr = true := by decide
  rw [dimsDe, if_neg hforn, if_neg hfabr]
  rfl

theorem dfBig_names : ((criar_e_integrar_dimensoes dfBig).toOption.map
    (fun out => out.2.map (fun d => d.1))) =
    some ["instituicao", "produto"] := by
  rw [dfBig_ok]
  show some ((dimsDe dfBig).map (fun d => d.1)) = _
  rw [dfBig_dims]
  rfl

theorem dfBig_key99999 :
    ((criar_e_integrar_dimensoes dfBig).toOption.map
      (fun out => ((out.2.getD 0 ("", "", [])).2.2.getD 99999
        ("", [])).1)) = some ("Ins" ++ pad5 100000) := by
  rw [dfBig_ok]
  show some (((dimsDe dfBig).getD 0 ("", "", [])).2.2.getD 99999
    ("", [])).1 = _
  rw [dfBig_dims, List.getD_cons_zero]
  dsimp only
  rw [dimInstDe, criarDimensao_getD dfBig.rows atributosInstituicao
    "Ins" 99999 (by rw [dfBig_dedup_len]; omega),
    show (99999 : ℕ) + 1 = 100000 from rfl]

theorem string_length_append (s t : String) :
    (s ++ t).length = s.length + t.length := by
  cases s
  cases t
  show (List.append _ _).length = _
  rw [show ∀ a b : List Char, a.append b = a ++ b from fun _ _ => rfl,
    List.length_append]
  rfl

theorem dfBig_keylen : ("Ins" ++ pad5 100000).length = 9 := by
  rw [string_length_append, pad5_100000_len,
    show "Ins".length = 3 from rfl]

/-- Counterexample to C2 as stated: on a fact table with 100000 distinct
institution-attribute combinations, the 100000-th combination receives
the key `Ins` followed by the six-digit index `100000` — Python's
`f-string` `{x:05d}` zero-pads to a minimum of five digits, it does not
cap at five — so the key is not the prefix plus exactly five digits. -/
theorem C2_dimensoes_counterexample :
    ((criar_e_integrar_dimensoes dfBig).toOption.map
      (fun out => out.2.map (fun d => d.1))) =
      some ["instituicao", "produto"] ∧
    ((criar_e_integrar_dimensoes dfBig).toOption.map
      (fun out => ((out.2.getD 0 ("", "", [])).2.2.getD 99999
        ("", [])).1)) = some ("Ins" ++ pad5 100000) ∧
    ("Ins" ++ pad5 100000).length = 9 ∧
    ¬ ("Ins" ++ pad5 100000).length = 3 + 5 := by
  refine ⟨dfBig_names, dfBig_key99999, dfBig_keylen, ?_⟩
  rw [dfBig_keylen]
  omega

/-! ## C4: behaviour of the enrichment stages on missing columns -/

/-- Concrete table missing `compra`, `data_compra`, `id_produto`,
`score_z_risco` and the radar key columns: every guarded stage skips it
and the unguarded concentration stage fails on it. -/
noncomputable def dfC4 : DF :=
  { cols := ["preco_total", "id_fornecedor"], rows := [row0] }

/-- C4 (amended): the z-score, intermittency and prioritization stages
are no-ops returning the input table unchanged when their required
columns are absent (lines 24-26, 83-85 and 189-191 of
src/modelagem_dim.py), and the radar stage returns an empty frame when
its required columns are absent (lines 323-327); but the supplier
concentration stage has no column guard — `df.groupby('id_produto')` at
line 141 raises a `KeyError` that propagates past the stage boundary
(src/main.py calls it bare) whenever `id_produto`, `preco_total` or
`id_fornecedor` is missing. -/
theorem C4_no_op (df : DF) :
    (hasCols df zscoreCols = false → calcular_zscore_risco df = df) ∧
    ("data_compra" ∉ df.cols → calcular_risco_intermitencia df = df) ∧
    (hasCols df priorCols = false → calcular_indice_priorizacao df = df) ∧
    (hasCols df radarCols = false →
      gerar_mini_fato_radar_enriquecida df = []) ∧
    (¬ ("id_produto" ∈ df.cols ∧ "preco_total" ∈ df.cols ∧
        "id_fornecedor" ∈ df.cols) →
      calcular_concentracao_fornecedor df = Except.error "KeyError") := by
  refine ⟨?_, ?_, ?_, ?_, ?_⟩
  · intro h
    rw [calcular_zscore_risco, if_neg (by simp [h])]
  · intro h
    rw [calcular_risco_intermitencia, if_neg h]
  · intro h
    rw [calcular_indice_priorizacao, if_neg (by simp [h])]
  · intro h
    rw [gerar_mini_fato_radar_enriquecida, if_neg (by simp [h])]
  · intro h
    rw [calcular_concentracao_fornecedor, if_neg h]

/-- Witness for C4 at the concrete table `dfC4`. -/
theorem C4_no_op_witness :
    calcular_zscore_risco dfC4 = dfC4 ∧
    calcular_risco_intermitencia dfC4 = dfC4 ∧
    calcular_indice_priorizacao dfC4 = dfC4 ∧
    gerar_mini_fato_radar_enriquecida dfC4 = [] ∧
    calcular_concentracao_fornecedor dfC4 = Except.error "KeyError" :=
  ⟨(C4_no_op dfC4).1 (by decide),
   (C4_no_op dfC4).2.1 (by decide),
   (C4_no_op dfC4).2.2.1 (by decide),
   (C4_no_op dfC4).2.2.2.1 (by decide),
   (C4_no_op dfC4).2.2.2.2 (by decide)⟩

/-- Counterexample to C4 as stated: the supplier concentration stage is
not a no-op and does not hold its exception when `id_produto` is absent —
on a concrete table without that column it raises (`Except.error`)
instead of returning the input unchanged. -/
theorem C4_no_op_counterexample :
    hasCols dfC4 ["id_produto"] = false ∧
    calcular_concentracao_fornecedor dfC4 = Except.error "KeyError" := by
  refine ⟨by decide, ?_⟩
  rw [calcular_concentracao_fornecedor, if_neg (by decide)]

end Compras
